import Mathlib

/-!
# ym-tclpp: option parsing (`TclPopt.cc`) and variable traces (`TclVarTrace.cc`)

A shallow embedding of the two source files.  Member functions become functions
that take the object (and every piece of state they touch) and return the
updated state.  Virtual member functions that the source defines with a default
body are passed as a table of functions, with the source's bodies as the
default table.
-/

namespace YmTclpp

/-! ## Option subsystem: data model -/

/-- Status of a match, `TclPoptStat`; the source produces `Ok` and `Error`. -/
inductive TclPoptStat
  | Ok
  | Error
deriving DecidableEq, Repr

/-- A Tcl object handle (`TclObj`), represented by its string representation. -/
structure TclObj where
  str : String
deriving DecidableEq, Repr, Inhabited

/-- The argument vector `TclObjVector`; an iterator into it is an index. -/
abbrev TclObjVector := List TclObj

/-- Modelled from the spec: the result channel written by `set_result(message)`,
"write a human-readable error string, overwriting any prior content".  It belongs
to the owning command (`mCmd`), whose class is not part of the two source files. -/
structure TclCmd where
  result : String
deriving DecidableEq, Repr

/-- Modelled from the spec: `set_result(message)` overwrites the result channel. -/
def set_result (emsg : String) (cmd : TclCmd) : TclCmd :=
  { cmd with result := emsg }

/-- Modelled from the spec: the "text-to-type conversion routines for
bool/int/unsigned-int/long/unsigned-long/double, each returning success/failure
plus the parsed value on success".  `none` is `TCL_ERROR`; `some v` is `TCL_OK`
with `v` written to the output argument. -/
structure Conv where
  bool_conv : TclObj → Option Bool
  int_conv : TclObj → Option Int
  uint_conv : TclObj → Option Nat
  long_conv : TclObj → Option Int
  ulong_conv : TclObj → Option Nat
  double_conv : TclObj → Option Float

/-- Largest value of a C++ `int` (32 bits). -/
def INT_MAX : Int := 2147483647

/-- Smallest value of a C++ `int` (32 bits, two's complement). -/
def INT_MIN : Int := -2147483648

/-- The value a C++ `int` holds after an arithmetic result `x`: `x` itself when
it fits, otherwise `x` reduced modulo `2^32` into `INT_MIN .. INT_MAX`, which is
what the compiled `++` does at `INT_MAX`. -/
def wrapInt (x : Int) : Int :=
  (x + 2147483648) % 4294967296 - 2147483648

/-- Data members of the base class `TclPopt` (the owning command is threaded
separately as `TclCmd`).  `mCount` is a C++ `int`: arithmetic on it goes
through `wrapInt`. -/
structure TclPopt where
  mOptStr : String
  mOptDesc : String
  mArgDesc : String
  mAllowOverride : Bool
  mCount : Int

/-- Class `TclPoptObj`: the argument object is stored verbatim. -/
structure TclPoptObj extends TclPopt where
  mVal : TclObj

/-- Class `TclPoptStr`. -/
structure TclPoptStr extends TclPopt where
  mVal : String

/-- Class `TclPoptBool`. -/
structure TclPoptBool extends TclPopt where
  mVal : Bool

/-- Class `TclPoptInt` (`ymint mVal`). -/
structure TclPoptInt extends TclPopt where
  mVal : Int

/-- Class `TclPoptUint` (`unsigned int mVal`). -/
structure TclPoptUint extends TclPopt where
  mVal : Nat

/-- Class `TclPoptLong` (`ymlong mVal`). -/
structure TclPoptLong extends TclPopt where
  mVal : Int

/-- Class `TclPoptUlong` (`unsigned long mVal`). -/
structure TclPoptUlong extends TclPopt where
  mVal : Nat

/-- Class `TclPoptDouble`. -/
structure TclPoptDouble extends TclPopt where
  mVal : Float

/-- An option object together with its dynamic type: the base class or one of
the eight typed classes of `TclPopt.cc`. -/
inductive Popt
  | base (p : TclPopt)
  | obj (p : TclPoptObj)
  | str (p : TclPoptStr)
  | bool (p : TclPoptBool)
  | int (p : TclPoptInt)
  | uint (p : TclPoptUint)
  | long (p : TclPoptLong)
  | ulong (p : TclPoptUlong)
  | double (p : TclPoptDouble)

/-- The dynamic type of an option object. -/
inductive Kind
  | base | obj | str | bool | int | uint | long | ulong | double
deriving DecidableEq, Repr

/-- Dynamic type of an option. -/
def Popt.kind : Popt → Kind
  | .base _ => .base
  | .obj _ => .obj
  | .str _ => .str
  | .bool _ => .bool
  | .int _ => .int
  | .uint _ => .uint
  | .long _ => .long
  | .ulong _ => .ulong
  | .double _ => .double

/-- The eight typed classes (every class except the base class). -/
def Popt.isTyped (self : Popt) : Bool :=
  decide (self.kind ≠ .base)

/-- The base-class subobject of an option. -/
def Popt.toTclPopt : Popt → TclPopt
  | .base p => p
  | .obj p => p.toTclPopt
  | .str p => p.toTclPopt
  | .bool p => p.toTclPopt
  | .int p => p.toTclPopt
  | .uint p => p.toTclPopt
  | .long p => p.toTclPopt
  | .ulong p => p.toTclPopt
  | .double p => p.toTclPopt

/-- Assignment to the base-class member `mCount`. -/
def Popt.setCount (n : Int) : Popt → Popt
  | .base p => .base { p with mCount := n }
  | .obj p => .obj { p with mCount := n }
  | .str p => .str { p with mCount := n }
  | .bool p => .bool { p with mCount := n }
  | .int p => .int { p with mCount := n }
  | .uint p => .uint { p with mCount := n }
  | .long p => .long { p with mCount := n }
  | .ulong p => .ulong { p with mCount := n }
  | .double p => .double { p with mCount := n }

/-- A value returned by one of the `val()` accessors. -/
inductive Value
  | obj (v : TclObj)
  | str (v : String)
  | bool (v : Bool)
  | int (v : Int)
  | uint (v : Nat)
  | long (v : Int)
  | ulong (v : Nat)
  | double (v : Float)

/-! ## Option subsystem: accessors -/

/-- `TclPopt::opt_str`. -/
def TclPopt.opt_str (self : TclPopt) : String :=
  self.mOptStr

/-- `TclPopt::opt_desc`. -/
def TclPopt.opt_desc (self : TclPopt) : String :=
  self.mOptDesc

/-- `TclPopt::arg_desc`. -/
def TclPopt.arg_desc (self : TclPopt) : String :=
  self.mArgDesc

/-- `TclPopt::count`: `return mCount;`. -/
def TclPopt.count (self : TclPopt) : Int :=
  self.mCount

/-- `TclPopt::is_specified`: `return count() > 0;`. -/
def TclPopt.is_specified (self : TclPopt) : Bool :=
  decide (self.count > 0)

/-- `count()` called on an option of any dynamic type. -/
def Popt.count (self : Popt) : Int :=
  self.toTclPopt.count

/-- `is_specified()` called on an option of any dynamic type. -/
def Popt.is_specified (self : Popt) : Bool :=
  self.toTclPopt.is_specified

/-- `TclPoptObj::val`. -/
def TclPoptObj.val (self : TclPoptObj) : TclObj :=
  self.mVal

/-- `TclPoptStr::val`. -/
def TclPoptStr.val (self : TclPoptStr) : String :=
  self.mVal

/-- `TclPoptBool::val`. -/
def TclPoptBool.val (self : TclPoptBool) : Bool :=
  self.mVal

/-- `TclPoptInt::val`. -/
def TclPoptInt.val (self : TclPoptInt) : Int :=
  self.mVal

/-- `TclPoptUint::val`. -/
def TclPoptUint.val (self : TclPoptUint) : Nat :=
  self.mVal

/-- `TclPoptLong::val`. -/
def TclPoptLong.val (self : TclPoptLong) : Int :=
  self.mVal

/-- `TclPoptUlong::val`. -/
def TclPoptUlong.val (self : TclPoptUlong) : Nat :=
  self.mVal

/-- `TclPoptDouble::val`. -/
def TclPoptDouble.val (self : TclPoptDouble) : Float :=
  self.mVal

/-- The `val()` accessor of the option's class; the base class has none. -/
def Popt.val : Popt → Option Value
  | .base _ => none
  | .obj p => some (.obj p.val)
  | .str p => some (.str p.val)
  | .bool p => some (.bool p.val)
  | .int p => some (.int p.val)
  | .uint p => some (.uint p.val)
  | .long p => some (.long p.val)
  | .ulong p => some (.ulong p.val)
  | .double p => some (.double p.val)

/-- The value an argument token converts to for the option's class: the object
itself, its string, or the result of the class's conversion routine.  `none`
when the routine reports failure (and for the base class, which takes no
argument). -/
def Popt.convert (tcl : Conv) : Popt → TclObj → Option Value
  | .base _, _ => none
  | .obj _, t => some (.obj t)
  | .str _, t => some (.str t.str)
  | .bool _, t => (tcl.bool_conv t).map Value.bool
  | .int _, t => (tcl.int_conv t).map Value.int
  | .uint _, t => (tcl.uint_conv t).map Value.uint
  | .long _, t => (tcl.long_conv t).map Value.long
  | .ulong _, t => (tcl.ulong_conv t).map Value.ulong
  | .double _, t => (tcl.double_conv t).map Value.double

/-! ## Option subsystem: overridable member functions -/

/-- The virtual member functions that subclasses may override: `init()` and the
per-class post-match functions.  They see the option read-only (its data
members are private) and may write the result channel. -/
structure Hooks where
  init : Popt → TclCmd → TclCmd
  action_obj : String → TclPoptObj → TclCmd → TclPoptStat × TclCmd
  action_str : String → TclPoptStr → TclCmd → TclPoptStat × TclCmd
  action_bool : String → TclPoptBool → TclCmd → TclPoptStat × TclCmd
  action_int : String → TclPoptInt → TclCmd → TclPoptStat × TclCmd
  action_uint : String → TclPoptUint → TclCmd → TclPoptStat × TclCmd
  action_long : String → TclPoptLong → TclCmd → TclPoptStat × TclCmd
  action_ulong : String → TclPoptUlong → TclCmd → TclPoptStat × TclCmd
  action_double : String → TclPoptDouble → TclCmd → TclPoptStat × TclCmd

/-- `TclPopt::init`: the default does nothing. -/
def TclPopt.init (_self : Popt) (cmd : TclCmd) : TclCmd :=
  cmd

/-- `TclPoptObj::action_obj`: `return TclPoptStat::Ok;`. -/
def TclPoptObj.action_obj (_opt_str : String) (_self : TclPoptObj) (cmd : TclCmd) :
    TclPoptStat × TclCmd :=
  (.Ok, cmd)

/-- `TclPoptStr::action_str`: `return TclPoptStat::Ok;`. -/
def TclPoptStr.action_str (_opt_str : String) (_self : TclPoptStr) (cmd : TclCmd) :
    TclPoptStat × TclCmd :=
  (.Ok, cmd)

/-- `TclPoptBool::action_bool`: `return TclPoptStat::Ok;`. -/
def TclPoptBool.action_bool (_opt_str : String) (_self : TclPoptBool) (cmd : TclCmd) :
    TclPoptStat × TclCmd :=
  (.Ok, cmd)

/-- `TclPoptInt::action_int`: `return TclPoptStat::Ok;`. -/
def TclPoptInt.action_int (_opt_str : String) (_self : TclPoptInt) (cmd : TclCmd) :
    TclPoptStat × TclCmd :=
  (.Ok, cmd)

/-- `TclPoptUint::action_uint`: `return TclPoptStat::Ok;`. -/
def TclPoptUint.action_uint (_opt_str : String) (_self : TclPoptUint) (cmd : TclCmd) :
    TclPoptStat × TclCmd :=
  (.Ok, cmd)

/-- `TclPoptLong::action_long`: `return TclPoptStat::Ok;`. -/
def TclPoptLong.action_long (_opt_str : String) (_self : TclPoptLong) (cmd : TclCmd) :
    TclPoptStat × TclCmd :=
  (.Ok, cmd)

/-- `TclPoptUlong::action_ulong`: `return TclPoptStat::Ok;`. -/
def TclPoptUlong.action_ulong (_opt_str : String) (_self : TclPoptUlong) (cmd : TclCmd) :
    TclPoptStat × TclCmd :=
  (.Ok, cmd)

/-- `TclPoptDouble::action_double`: `return TclPoptStat::Ok;`. -/
def TclPoptDouble.action_double (_opt_str : String) (_self : TclPoptDouble) (cmd : TclCmd) :
    TclPoptStat × TclCmd :=
  (.Ok, cmd)

/-- The bodies the source gives to the overridable member functions. -/
def Hooks.default : Hooks where
  init := TclPopt.init
  action_obj := TclPoptObj.action_obj
  action_str := TclPoptStr.action_str
  action_bool := TclPoptBool.action_bool
  action_int := TclPoptInt.action_int
  action_uint := TclPoptUint.action_uint
  action_long := TclPoptLong.action_long
  action_ulong := TclPoptUlong.action_ulong
  action_double := TclPoptDouble.action_double

/-! ## Option subsystem: matching -/

/-- `TclPopt::get_next_arg`.  Returns the success flag, the cursor, the output
object and the result channel.  `none` stands for dereferencing a cursor that
is neither `end` nor inside the vector, which the source leaves undefined. -/
def TclPopt.get_next_arg (opt_str : String) (args : TclObjVector) (rpos end_ : Nat)
    (obj : TclObj) (cmd : TclCmd) : Option (Bool × Nat × TclObj × TclCmd) :=
  if rpos = end_ then
    let emsg := opt_str ++ ": no argument"
    some (false, rpos, obj, set_result emsg cmd)
  else
    match args[rpos]? with
    | none => none
    | some a => some (true, rpos + 1, a, cmd)

/-- `TclPopt::action`: the base class consumes nothing and returns `Ok`. -/
def TclPopt.action (_opt_str : String) (_args : TclObjVector) (rpos _end : Nat)
    (self : TclPopt) (cmd : TclCmd) : Option (TclPoptStat × Nat × TclPopt × TclCmd) :=
  some (.Ok, rpos, self, cmd)

/-- `TclPoptObj::action`: `get_next_arg` writes straight into `mVal`. -/
def TclPoptObj.action (action_obj : String → TclPoptObj → TclCmd → TclPoptStat × TclCmd)
    (opt_str : String) (args : TclObjVector) (rpos end_ : Nat)
    (self : TclPoptObj) (cmd : TclCmd) : Option (TclPoptStat × Nat × TclPoptObj × TclCmd) :=
  match TclPopt.get_next_arg opt_str args rpos end_ self.mVal cmd with
  | none => none
  | some (false, rpos, obj, cmd) => some (.Error, rpos, { self with mVal := obj }, cmd)
  | some (true, rpos, obj, cmd) =>
    let self := { self with mVal := obj }
    let r := action_obj opt_str self cmd
    some (r.1, rpos, self, r.2)

/-- `TclPoptStr::action`: the object-to-string conversion `mVal = arg_obj` does
not fail. -/
def TclPoptStr.action (action_str : String → TclPoptStr → TclCmd → TclPoptStat × TclCmd)
    (opt_str : String) (args : TclObjVector) (rpos end_ : Nat)
    (self : TclPoptStr) (cmd : TclCmd) : Option (TclPoptStat × Nat × TclPoptStr × TclCmd) :=
  match TclPopt.get_next_arg opt_str args rpos end_ default cmd with
  | none => none
  | some (false, rpos, _, cmd) => some (.Error, rpos, self, cmd)
  | some (true, rpos, arg_obj, cmd) =>
    let self := { self with mVal := arg_obj.str }
    let r := action_str opt_str self cmd
    some (r.1, rpos, self, r.2)

/-- `TclPoptBool::action`. -/
def TclPoptBool.action (tcl : Conv)
    (action_bool : String → TclPoptBool → TclCmd → TclPoptStat × TclCmd)
    (opt_str : String) (args : TclObjVector) (rpos end_ : Nat)
    (self : TclPoptBool) (cmd : TclCmd) : Option (TclPoptStat × Nat × TclPoptBool × TclCmd) :=
  match TclPopt.get_next_arg opt_str args rpos end_ default cmd with
  | none => none
  | some (false, rpos, _, cmd) => some (.Error, rpos, self, cmd)
  | some (true, rpos, arg_obj, cmd) =>
    match tcl.bool_conv arg_obj with
    | none =>
      let emsg := opt_str ++ ": Needs an boolean value"
      some (.Error, rpos, self, set_result emsg cmd)
    | some v =>
      let self := { self with mVal := v }
      let r := action_bool opt_str self cmd
      some (r.1, rpos, self, r.2)

/-- `TclPoptInt::action`. -/
def TclPoptInt.action (tcl : Conv)
    (action_int : String → TclPoptInt → TclCmd → TclPoptStat × TclCmd)
    (opt_str : String) (args : TclObjVector) (rpos end_ : Nat)
    (self : TclPoptInt) (cmd : TclCmd) : Option (TclPoptStat × Nat × TclPoptInt × TclCmd) :=
  match TclPopt.get_next_arg opt_str args rpos end_ default cmd with
  | none => none
  | some (false, rpos, _, cmd) => some (.Error, rpos, self, cmd)
  | some (true, rpos, arg_obj, cmd) =>
    match tcl.int_conv arg_obj with
    | none =>
      let emsg := opt_str ++ ": Needs an integer value"
      some (.Error, rpos, self, set_result emsg cmd)
    | some v =>
      let self := { self with mVal := v }
      let r := action_int opt_str self cmd
      some (r.1, rpos, self, r.2)

/-- `TclPoptUint::action`. -/
def TclPoptUint.action (tcl : Conv)
    (action_uint : String → TclPoptUint → TclCmd → TclPoptStat × TclCmd)
    (opt_str : String) (args : TclObjVector) (rpos end_ : Nat)
    (self : TclPoptUint) (cmd : TclCmd) : Option (TclPoptStat × Nat × TclPoptUint × TclCmd) :=
  match TclPopt.get_next_arg opt_str args rpos end_ default cmd with
  | none => none
  | some (false, rpos, _, cmd) => some (.Error, rpos, self, cmd)
  | some (true, rpos, arg_obj, cmd) =>
    match tcl.uint_conv arg_obj with
    | none =>
      let emsg := opt_str ++ ": Needs an unsigned integer value"
      some (.Error, rpos, self, set_result emsg cmd)
    | some v =>
      let self := { self with mVal := v }
      let r := action_uint opt_str self cmd
      some (r.1, rpos, self, r.2)

/-- `TclPoptLong::action`. -/
def TclPoptLong.action (tcl : Conv)
    (action_long : String → TclPoptLong → TclCmd → TclPoptStat × TclCmd)
    (opt_str : String) (args : TclObjVector) (rpos end_ : Nat)
    (self : TclPoptLong) (cmd : TclCmd) : Option (TclPoptStat × Nat × TclPoptLong × TclCmd) :=
  match TclPopt.get_next_arg opt_str args rpos end_ default cmd with
  | none => none
  | some (false, rpos, _, cmd) => some (.Error, rpos, self, cmd)
  | some (true, rpos, arg_obj, cmd) =>
    match tcl.long_conv arg_obj with
    | none =>
      let emsg := opt_str ++ ": Needs a long integer value"
      some (.Error, rpos, self, set_result emsg cmd)
    | some v =>
      let self := { self with mVal := v }
      let r := action_long opt_str self cmd
      some (r.1, rpos, self, r.2)

/-- `TclPoptUlong::action`. -/
def TclPoptUlong.action (tcl : Conv)
    (action_ulong : String → TclPoptUlong → TclCmd → TclPoptStat × TclCmd)
    (opt_str : String) (args : TclObjVector) (rpos end_ : Nat)
    (self : TclPoptUlong) (cmd : TclCmd) : Option (TclPoptStat × Nat × TclPoptUlong × TclCmd) :=
  match TclPopt.get_next_arg opt_str args rpos end_ default cmd with
  | none => none
  | some (false, rpos, _, cmd) => some (.Error, rpos, self, cmd)
  | some (true, rpos, arg_obj, cmd) =>
    match tcl.ulong_conv arg_obj with
    | none =>
      let emsg := opt_str ++ ": Needs a long integer value"
      some (.Error, rpos, self, set_result emsg cmd)
    | some v =>
      let self := { self with mVal := v }
      let r := action_ulong opt_str self cmd
      some (r.1, rpos, self, r.2)

/-- `TclPoptDouble::action`. -/
def TclPoptDouble.action (tcl : Conv)
    (action_double : String → TclPoptDouble → TclCmd → TclPoptStat × TclCmd)
    (opt_str : String) (args : TclObjVector) (rpos end_ : Nat)
    (self : TclPoptDouble) (cmd : TclCmd) : Option (TclPoptStat × Nat × TclPoptDouble × TclCmd) :=
  match TclPopt.get_next_arg opt_str args rpos end_ default cmd with
  | none => none
  | some (false, rpos, _, cmd) => some (.Error, rpos, self, cmd)
  | some (true, rpos, arg_obj, cmd) =>
    match tcl.double_conv arg_obj with
    | none =>
      let emsg := opt_str ++ ": Needs a double floating value"
      some (.Error, rpos, self, set_result emsg cmd)
    | some v =>
      let self := { self with mVal := v }
      let r := action_double opt_str self cmd
      some (r.1, rpos, self, r.2)

/-- Helper: re-tag the result of a class's `action` with its dynamic type. -/
def Popt.wrap {α : Type} (mk : α → Popt) :
    Option (TclPoptStat × Nat × α × TclCmd) → Option (TclPoptStat × Nat × Popt × TclCmd)
  | none => none
  | some (st, rpos, p, cmd) => some (st, rpos, mk p, cmd)

/-- The virtual call `action(opt_str, rpos, end)`, dispatched on the dynamic
type. -/
def Popt.action (tcl : Conv) (h : Hooks) (opt_str : String) (args : TclObjVector)
    (rpos end_ : Nat) (self : Popt) (cmd : TclCmd) :
    Option (TclPoptStat × Nat × Popt × TclCmd) :=
  match self with
  | .base p => Popt.wrap Popt.base (TclPopt.action opt_str args rpos end_ p cmd)
  | .obj p => Popt.wrap Popt.obj (TclPoptObj.action h.action_obj opt_str args rpos end_ p cmd)
  | .str p => Popt.wrap Popt.str (TclPoptStr.action h.action_str opt_str args rpos end_ p cmd)
  | .bool p =>
    Popt.wrap Popt.bool (TclPoptBool.action tcl h.action_bool opt_str args rpos end_ p cmd)
  | .int p =>
    Popt.wrap Popt.int (TclPoptInt.action tcl h.action_int opt_str args rpos end_ p cmd)
  | .uint p =>
    Popt.wrap Popt.uint (TclPoptUint.action tcl h.action_uint opt_str args rpos end_ p cmd)
  | .long p =>
    Popt.wrap Popt.long (TclPoptLong.action tcl h.action_long opt_str args rpos end_ p cmd)
  | .ulong p =>
    Popt.wrap Popt.ulong (TclPoptUlong.action tcl h.action_ulong opt_str args rpos end_ p cmd)
  | .double p =>
    Popt.wrap Popt.double
      (TclPoptDouble.action tcl h.action_double opt_str args rpos end_ p cmd)

/-- `TclPopt::_init`: `mCount = 0; init();`. -/
def Popt._init (h : Hooks) (self : Popt) (cmd : TclCmd) : Popt × TclCmd :=
  let self := self.setCount 0
  (self, h.init self cmd)

/-- `TclPopt::_action`. -/
def Popt._action (tcl : Conv) (h : Hooks) (opt_str : String) (args : TclObjVector)
    (rpos end_ : Nat) (self : Popt) (cmd : TclCmd) :
    Option (TclPoptStat × Nat × Popt × TclCmd) :=
  if !self.toTclPopt.mAllowOverride && decide (self.toTclPopt.mCount > 0) then
    let emsg := opt_str ++ ": specified more than once"
    some (.Error, rpos, self, set_result emsg cmd)
  else
    let self := self.setCount (wrapInt (self.toTclPopt.mCount + 1))
    Popt.action tcl h opt_str args rpos end_ self cmd

/-! ## Option groups -/

/-- A pointer to an option (`TclPopt*`). -/
abbrev PoptPtr := Nat

/-- Class `TclPoptGroup`: a list of non-owning pointers to options. -/
structure TclPoptGroup where
  mPoptList : List PoptPtr
deriving DecidableEq, Repr

/-- `TclPoptGroup::TclPoptGroup`: the list starts empty. -/
def TclPoptGroup.new : TclPoptGroup :=
  { mPoptList := [] }

/-- `TclPoptGroup::check`.  `heap` gives the option each pointer refers to. -/
def TclPoptGroup.check (heap : PoptPtr → Popt) (self : TclPoptGroup) : Bool :=
  let count := self.mPoptList.foldl
    (fun (count : Int) popt => if (heap popt).is_specified then count + 1 else count) 0
  decide (count > 1)

/-- `TclPoptGroup::popt_list`. -/
def TclPoptGroup.popt_list (self : TclPoptGroup) : List PoptPtr :=
  self.mPoptList

/-! ## Variable traces: data model -/

/-- Constants of `tcl.h` that `TclVarTrace.cc` names; the header is not part of
the source files, so their values are parameters. -/
structure TclH where
  TCL_OK : Int
  TCL_TRACE_UNSETS : Nat
  TCL_TRACE_DESTROYED : Nat
deriving DecidableEq, Repr

/-- A non-null interpreter handle (`Tcl_Interp*`). -/
abbrev InterpPtr := Nat

/-- The opaque context `(ClientData) this`: the identity of a trace object. -/
abbrev ClientData := Nat

/-- Data members of `TclVarTrace`.  `mInterp` is the nullable interpreter handle
kept by the base class; flag words are bit masks. -/
structure TclVarTrace where
  mInterp : Option InterpPtr
  mName1 : String
  mName2 : String
  mFlags : Nat
deriving DecidableEq, Repr

/-- `TclVarTrace::TclVarTrace`: the body is empty; the handle starts null and
the names empty, while `mFlags` is whatever the storage holds. -/
def TclVarTrace.new (mFlags : Nat) : TclVarTrace :=
  { mInterp := none, mName1 := "", mName2 := "", mFlags := mFlags }

/-- Modelled from the spec: `interp()`, the "bound interpreter handle (nullable —
null means unbound)"; the accessor is declared in a header outside the source
files. -/
def TclVarTrace.interp (self : TclVarTrace) : Option InterpPtr :=
  self.mInterp

/-- Modelled from the spec: `set_interp`, which records or clears the handle. -/
def TclVarTrace.set_interp (self : TclVarTrace) (interp : Option InterpPtr) : TclVarTrace :=
  { self with mInterp := interp }

/-- Modelled from the spec: `is_bound()`, true when the handle is non-null. -/
def TclVarTrace.is_bound (self : TclVarTrace) : Bool :=
  self.interp.isSome

/-- Modelled from the spec: `flags()`, the recorded "trace flag bitmask". -/
def TclVarTrace.flags (self : TclVarTrace) : Nat :=
  self.mFlags

/-- One watch as the hosting engine is asked to register or remove it.  `name2`
is `none` for the one-name calls `Tcl_TraceVar` / `Tcl_UntraceVar` and `some s`
for `Tcl_TraceVar2` / `Tcl_UntraceVar2` called with the string `s`.  The
trampoline is always `vartrace_callback`. -/
structure Watch where
  interp : InterpPtr
  name1 : String
  name2 : Option String
  flags : Nat
  clientData : ClientData
deriving DecidableEq, Repr

/-- Modelled from the spec: the hosting variable engine, as the list of watches
it currently holds. -/
structure Engine where
  regs : List Watch
deriving DecidableEq, Repr

/-- Modelled from the spec: `register_watch(handle, name1, [name2], flags,
trampoline, context) -> status`.  The engine answers `status`; it holds the new
watch exactly when the answer is `TCL_OK`. -/
def Engine.register_watch (k : TclH) (e : Engine) (w : Watch) (status : Int) : Int × Engine :=
  if status = k.TCL_OK then (status, { e with regs := e.regs ++ [w] }) else (status, e)

/-- Modelled from the spec: `unregister_watch(handle, name1, [name2], flags,
trampoline, context)` removes the watch that matches the request, if any. -/
def Engine.unregister_watch (e : Engine) (w : Watch) : Engine :=
  { e with regs := e.regs.erase w }

/-- `Tcl_TraceVar(interp, name1, flags, proc, clientData)`. -/
def Tcl_TraceVar (k : TclH) (e : Engine) (interp : InterpPtr) (name1 : String) (flags : Nat)
    (clientData : ClientData) (status : Int) : Int × Engine :=
  e.register_watch k ⟨interp, name1, none, flags, clientData⟩ status

/-- `Tcl_TraceVar2(interp, name1, name2, flags, proc, clientData)`. -/
def Tcl_TraceVar2 (k : TclH) (e : Engine) (interp : InterpPtr) (name1 name2 : String)
    (flags : Nat) (clientData : ClientData) (status : Int) : Int × Engine :=
  e.register_watch k ⟨interp, name1, some name2, flags, clientData⟩ status

/-- `Tcl_UntraceVar(interp, name1, flags, proc, clientData)`. -/
def Tcl_UntraceVar (e : Engine) (interp : InterpPtr) (name1 : String) (flags : Nat)
    (clientData : ClientData) : Engine :=
  e.unregister_watch ⟨interp, name1, none, flags, clientData⟩

/-- `Tcl_UntraceVar2(interp, name1, name2, flags, proc, clientData)`. -/
def Tcl_UntraceVar2 (e : Engine) (interp : InterpPtr) (name1 name2 : String) (flags : Nat)
    (clientData : ClientData) : Engine :=
  e.unregister_watch ⟨interp, name1, some name2, flags, clientData⟩

/-! ## Variable traces: operations -/

/-- `TclVarTrace::bind(interp, name1, flags)`.  `this` is the object's identity
and `status` the engine's answer to the registration request. -/
def TclVarTrace.bind (k : TclH) (this : ClientData) (self : TclVarTrace) (e : Engine)
    (interp : InterpPtr) (name1 : String) (flags : Nat) (status : Int) :
    Int × TclVarTrace × Engine :=
  let result := k.TCL_OK
  if !self.is_bound then
    let self := { self with mName1 := name1, mName2 := "", mFlags := flags }
    let flags := flags ||| k.TCL_TRACE_UNSETS
    let r := Tcl_TraceVar k e interp self.mName1 flags this status
    if r.1 = k.TCL_OK then
      (r.1, self.set_interp (some interp), r.2)
    else
      (r.1, self, r.2)
  else
    (result, self, e)

/-- `TclVarTrace::bind(interp, name1, name2, flags)`, the two-name overload. -/
def TclVarTrace.bind2 (k : TclH) (this : ClientData) (self : TclVarTrace) (e : Engine)
    (interp : InterpPtr) (name1 name2 : String) (flags : Nat) (status : Int) :
    Int × TclVarTrace × Engine :=
  let result := k.TCL_OK
  if !self.is_bound then
    let self := { self with mName1 := name1, mName2 := name2, mFlags := flags }
    let flags := flags ||| k.TCL_TRACE_UNSETS
    let r := Tcl_TraceVar2 k e interp self.mName1 self.mName2 flags this status
    if r.1 = k.TCL_OK then
      (r.1, self.set_interp (some interp), r.2)
    else
      (r.1, self, r.2)
  else
    (result, self, e)

/-- `TclVarTrace::unbind`.  `is_bound()` holds exactly when `interp()` is a
handle, so the test and the later `interp()` calls are one `match`. -/
def TclVarTrace.unbind (k : TclH) (this : ClientData) (self : TclVarTrace) (e : Engine) :
    TclVarTrace × Engine :=
  let flags := self.mFlags ||| k.TCL_TRACE_UNSETS
  match self.interp with
  | some interp =>
    let e :=
      if self.mName2 ≠ "" then
        Tcl_UntraceVar2 e interp self.mName1 self.mName2 flags this
      else
        Tcl_UntraceVar e interp self.mName1 flags this
    (self.set_interp none, e)
  | none => (self, e)

/-- Modelled from the spec: the "default trace-callback hook: no-op, returns
null"; `vartrace_proc` is declared in a header outside the source files. -/
def TclVarTrace.vartrace_proc (_self : TclVarTrace) (_name1 : String)
    (_name2 : Option String) (_flags : Nat) : Option String :=
  none

/-- `TclVarTrace::vartrace_callback`, the trampoline.  `trace_obj` is the object
recovered from `clientData`; `vartrace_proc` is its (overridable) hook, which
sees the object as it is when the hook runs.  `none` stands for the failing
`ASSERT_COND`. -/
def TclVarTrace.vartrace_callback (k : TclH)
    (vartrace_proc : TclVarTrace → String → Option String → Nat → Option String)
    (trace_obj : TclVarTrace) (interp : InterpPtr) (name1 : String) (name2 : Option String)
    (flags : Nat) : Option (Option String × TclVarTrace) :=
  if some interp ≠ trace_obj.interp then
    none
  else
    let result : Option String := none
    let result :=
      if flags &&& k.TCL_TRACE_UNSETS = 0 ∨
          trace_obj.flags &&& k.TCL_TRACE_UNSETS = k.TCL_TRACE_UNSETS then
        vartrace_proc trace_obj name1 name2 flags
      else
        result
    let trace_obj :=
      if flags &&& k.TCL_TRACE_DESTROYED ≠ 0 then trace_obj.set_interp none else trace_obj
    some (result, trace_obj)

/-! ## Variable traces: the object together with the hosting engine -/

/-- A trace object and the engine it registers with. -/
structure Sys where
  obj : TclVarTrace
  engine : Engine
deriving DecidableEq, Repr

/-- What can happen to a trace object: a call of either `bind` overload (with
the engine's answer), a call of `unbind`, or the engine invoking the trampoline
for a watch it holds. -/
inductive Event
  | bind (interp : InterpPtr) (name1 : String) (flags : Nat) (status : Int)
  | bind2 (interp : InterpPtr) (name1 name2 : String) (flags : Nat) (status : Int)
  | unbind
  | callback (w : Watch) (name1 : String) (name2 : Option String) (flags : Nat)
deriving DecidableEq, Repr

/-- One event.  The engine invokes the trampoline only for a watch it holds
whose context is this object, passing the watch's interpreter; when the call
carries the destroyed bit the engine is dropping that watch.  `none` when the
event cannot happen or the trampoline's assertion fails. -/
def Sys.step (k : TclH)
    (vartrace_proc : TclVarTrace → String → Option String → Nat → Option String)
    (this : ClientData) (s : Sys) : Event → Option Sys
  | .bind interp name1 flags status =>
    let r := s.obj.bind k this s.engine interp name1 flags status
    some { obj := r.2.1, engine := r.2.2 }
  | .bind2 interp name1 name2 flags status =>
    let r := s.obj.bind2 k this s.engine interp name1 name2 flags status
    some { obj := r.2.1, engine := r.2.2 }
  | .unbind =>
    let r := s.obj.unbind k this s.engine
    some { obj := r.1, engine := r.2 }
  | .callback w name1 name2 flags =>
    if w ∈ s.engine.regs ∧ w.clientData = this then
      match TclVarTrace.vartrace_callback k vartrace_proc s.obj w.interp name1 name2 flags with
      | none => none
      | some r =>
        let engine :=
          if flags &&& k.TCL_TRACE_DESTROYED ≠ 0 then s.engine.unregister_watch w
          else s.engine
        some { obj := r.2, engine := engine }
    else
      none

/-- A sequence of events, from left to right. -/
def Sys.run (k : TclH)
    (vartrace_proc : TclVarTrace → String → Option String → Nat → Option String)
    (this : ClientData) (s : Sys) : List Event → Option Sys
  | [] => some s
  | ev :: evs =>
    match s.step k vartrace_proc this ev with
    | none => none
    | some s1 => Sys.run k vartrace_proc this s1 evs

/-- The watches the engine holds for the object `this`. -/
def Engine.regsOf (e : Engine) (this : ClientData) : List Watch :=
  e.regs.filter (fun w => decide (w.clientData = this))

/-- The all-or-nothing binding invariant: either the handle is non-null and the
engine holds, for this object, exactly one watch, on the recorded interpreter,
`name1`, `name2` (an absent `name2` read as the empty string) and
`flags | TCL_TRACE_UNSETS`; or the handle is null and the engine holds no watch
for this object. -/
def Sys.consistent (k : TclH) (this : ClientData) (s : Sys) : Prop :=
  (∃ interp w, s.obj.interp = some interp ∧ s.engine.regsOf this = [w] ∧
      w.interp = interp ∧ w.name1 = s.obj.mName1 ∧ w.name2.getD "" = s.obj.mName2 ∧
      w.flags = s.obj.mFlags ||| k.TCL_TRACE_UNSETS) ∨
    (s.obj.interp = none ∧ s.engine.regsOf this = [])

/-- The constants as `tcl.h` defines them. -/
def tclH : TclH :=
  { TCL_OK := 0, TCL_TRACE_UNSETS := 0x40, TCL_TRACE_DESTROYED := 0x80 }

/-! ## Sequences of matches and sample data -/

/-- Successive calls of `_action` on one option with one option string, the
i-th call with the cursor at the i-th entry of the list.  Returns the statuses
in call order, the option and the result channel. -/
def Popt.actions (tcl : Conv) (h : Hooks) (opt_str : String) (args : TclObjVector)
    (end_ : Nat) : List Nat → Popt → TclCmd → Option (List TclPoptStat × Popt × TclCmd)
  | [], p, cmd => some ([], p, cmd)
  | rpos :: rest, p, cmd =>
    match Popt._action tcl h opt_str args rpos end_ p cmd with
    | none => none
    | some (st, _, p1, cmd1) =>
      match Popt.actions tcl h opt_str args end_ rest p1 cmd1 with
      | none => none
      | some (sts, p2, cmd2) => some (st :: sts, p2, cmd2)

/-- Sample conversion: a non-empty string of decimal digits. -/
def decimal (cs : List Char) : Option Nat :=
  if cs = [] then none
  else cs.foldl (fun acc c =>
    match acc with
    | none => none
    | some n => if c.isDigit then some (10 * n + (c.toNat - 48)) else none) (some 0)

/-- Sample conversion: a decimal number with an optional minus sign. -/
def signedDecimal (cs : List Char) : Option Int :=
  match cs with
  | '-' :: ds => (decimal ds).map (fun n => - (n : Int))
  | ds => (decimal ds).map Int.ofNat

/-- Sample conversion: the words `1`, `true`, `0`, `false`. -/
def boolWord (s : String) : Option Bool :=
  if s = "1" ∨ s = "true" then some true
  else if s = "0" ∨ s = "false" then some false
  else none

/-- Sample conversion routines used to evaluate the model on concrete tokens. -/
def sampleConv : Conv where
  bool_conv := fun o => boolWord o.str
  int_conv := fun o => signedDecimal o.str.data
  uint_conv := fun o => decimal o.str.data
  long_conv := fun o => signedDecimal o.str.data
  ulong_conv := fun o => decimal o.str.data
  double_conv := fun o => (decimal o.str.data).map Nat.toFloat

/-- Sample option `-n`: an `int` option that forbids a second match. -/
def optN : Popt :=
  .int { mOptStr := "-n", mOptDesc := "number", mArgDesc := "<int>",
         mAllowOverride := false, mCount := 0, mVal := 0 }

/-- Sample option `-v`: an `int` option that allows overriding. -/
def optV : Popt :=
  .int { mOptStr := "-v", mOptDesc := "level", mArgDesc := "<int>",
         mAllowOverride := true, mCount := 0, mVal := 0 }

/-- Sample option `-b`: a `bool` option. -/
def optB : Popt :=
  .bool { mOptStr := "-b", mOptDesc := "switch", mArgDesc := "<bool>",
          mAllowOverride := true, mCount := 0, mVal := false }

/-- Sample argument vector `-n 5 -n 6`. -/
def argsN : TclObjVector :=
  [⟨"-n"⟩, ⟨"5"⟩, ⟨"-n"⟩, ⟨"6"⟩]

/-- Sample argument vector `-b banana`. -/
def argsB : TclObjVector :=
  [⟨"-b"⟩, ⟨"banana"⟩]

/-- Sample result channel, empty. -/
def cmd0 : TclCmd :=
  { result := "" }

/-- Sample option state: the overridable `int` option `-v` with its counter at
`INT_MAX`. -/
def optMax : Popt :=
  .int { mOptStr := "-v", mOptDesc := "level", mArgDesc := "<int>",
         mAllowOverride := true, mCount := 2147483647, mVal := 0 }

/-- Sample run of `2^31` matches, each with the cursor at index 1. -/
def manyMatches : List Nat :=
  List.replicate 2147483648 1

/-- Sample option state: an `int` option matched once. -/
def optOnce : Popt :=
  .int { mOptStr := "-n", mOptDesc := "number", mArgDesc := "<int>",
         mAllowOverride := false, mCount := 1, mVal := 5 }

/-! ## Variable traces: auxiliary definitions -/

/-- The watch that `unbind` asks the engine to remove when the handle is
`interp`: the one-name request when `mName2` is empty, the two-name request
otherwise. -/
def TclVarTrace.unbindWatch (k : TclH) (this : ClientData) (self : TclVarTrace)
    (interp : InterpPtr) : Watch :=
  { interp := interp, name1 := self.mName1,
    name2 := if self.mName2 ≠ "" then some self.mName2 else none,
    flags := self.mFlags ||| k.TCL_TRACE_UNSETS, clientData := this }

/-- Every event except a two-name `bind` called with the empty string as
`name2`. -/
def Event.name2Given : Event → Bool
  | .bind2 _ _ name2 _ _ => decide (name2 ≠ "")
  | _ => true

/-- A freshly constructed trace object next to an engine state. -/
def Sys.fresh (mFlags : Nat) (e0 : Engine) : Sys :=
  { obj := TclVarTrace.new mFlags, engine := e0 }

/-- The binding invariant in the form the operations maintain: when bound, the
engine holds for this object exactly the watch that `unbind` will name. -/
def Sys.paired (k : TclH) (this : ClientData) (s : Sys) : Prop :=
  (∃ interp, s.obj.interp = some interp ∧
      s.engine.regsOf this = [s.obj.unbindWatch k this interp]) ∨
    (s.obj.interp = none ∧ s.engine.regsOf this = [])

/-- The watch the one-name `bind` asks the engine to register. -/
def TclVarTrace.bindWatch (k : TclH) (this : ClientData) (interp : InterpPtr)
    (name1 : String) (flags : Nat) : Watch :=
  { interp := interp, name1 := name1, name2 := none,
    flags := flags ||| k.TCL_TRACE_UNSETS, clientData := this }

/-- The watch the two-name `bind` asks the engine to register. -/
def TclVarTrace.bind2Watch (k : TclH) (this : ClientData) (interp : InterpPtr)
    (name1 name2 : String) (flags : Nat) : Watch :=
  { interp := interp, name1 := name1, name2 := some name2,
    flags := flags ||| k.TCL_TRACE_UNSETS, clientData := this }

/-- Sample trace object: bound to interpreter 1 on variable `a`, recorded flags
without the UNSET bit. -/
def boundA : TclVarTrace :=
  { mInterp := some 1, mName1 := "a", mName2 := "", mFlags := 0 }

/-- Sample trace object: bound to interpreter 1 on `a(x)`, recorded flags with
the UNSET bit. -/
def boundAx : TclVarTrace :=
  { mInterp := some 1, mName1 := "a", mName2 := "x", mFlags := 0x40 }

/-- Sample hook: reports whether the object it runs on is bound. -/
def hookReport (self : TclVarTrace) (_name1 : String) (_name2 : Option String)
    (_flags : Nat) : Option String :=
  if self.is_bound then some "bound" else some "unbound"

/-- Sample option `-f`: an option of the base class, which takes no argument. -/
def flagF : TclPopt :=
  { mOptStr := "-f", mOptDesc := "flag", mArgDesc := "",
    mAllowOverride := false, mCount := 0 }

/-! ## Option subsystem: basic facts -/

/-- A value inside the range of `int` is stored as it is. -/
theorem wrapInt_eq_self (x : Int) (h1 : INT_MIN ≤ x) (h2 : x ≤ INT_MAX) : wrapInt x = x := by
  unfold wrapInt
  unfold INT_MIN at h1
  unfold INT_MAX at h2
  omega

theorem wrapInt_one : wrapInt 1 = 1 := by decide

/-- Whatever is stored lies inside the range of `int`. -/
theorem wrapInt_range (x : Int) : INT_MIN ≤ wrapInt x ∧ wrapInt x ≤ INT_MAX := by
  unfold wrapInt INT_MIN INT_MAX
  omega

/-- Wrapping an intermediate result does not change the wrapped sum. -/
theorem wrapInt_add_wrapInt (a b : Int) : wrapInt (wrapInt a + b) = wrapInt (a + b) := by
  unfold wrapInt
  omega

theorem Popt.toTclPopt_setCount (n : Int) (p : Popt) :
    (p.setCount n).toTclPopt = { p.toTclPopt with mCount := n } := by
  cases p <;> rfl

theorem Popt.val_setCount (n : Int) (p : Popt) : (p.setCount n).val = p.val := by
  cases p <;> rfl

theorem Popt.kind_setCount (n : Int) (p : Popt) : (p.setCount n).kind = p.kind := by
  cases p <;> rfl

theorem Popt.convert_of_kind (tcl : Conv) (p q : Popt) (hk : p.kind = q.kind) :
    p.convert tcl = q.convert tcl := by
  cases p <;> cases q <;> first | rfl | (simp [Popt.kind] at hk)

/-- One call of `_action` that passes the duplicate check, with the cursor on a
convertible token and the default post-match functions: `Ok`, one token
consumed, the count incremented, the converted value stored. -/
theorem Popt._action_convertible (tcl : Conv) (p : Popt) (cmd : TclCmd) (opt_str : String)
    (args : TclObjVector) (rpos end_ : Nat) (t : TclObj) (v : Value)
    (hdup : (!p.toTclPopt.mAllowOverride && decide (p.toTclPopt.mCount > 0)) = false)
    (hne : rpos ≠ end_) (hat : args[rpos]? = some t) (hconv : p.convert tcl t = some v) :
    ∃ p1, Popt._action tcl Hooks.default opt_str args rpos end_ p cmd
        = some (.Ok, rpos + 1, p1, cmd) ∧
      p1.toTclPopt = { p.toTclPopt with mCount := wrapInt (p.toTclPopt.mCount + 1) } ∧
      p1.val = some v ∧ p1.kind = p.kind := by
  unfold Popt._action
  rw [hdup]
  cases p with
  | base q => simp [Popt.convert] at hconv
  | obj q =>
    simp only [Popt.convert, Option.some.injEq] at hconv
    subst hconv
    simp [Popt.setCount, Popt.action, TclPoptObj.action, TclPopt.get_next_arg, hne, hat,
      Popt.wrap, Hooks.default, TclPoptObj.action_obj, Popt.toTclPopt, Popt.val,
      TclPoptObj.val, Popt.kind]
  | str q =>
    simp only [Popt.convert, Option.some.injEq] at hconv
    subst hconv
    simp [Popt.setCount, Popt.action, TclPoptStr.action, TclPopt.get_next_arg, hne, hat,
      Popt.wrap, Hooks.default, TclPoptStr.action_str, Popt.toTclPopt, Popt.val,
      TclPoptStr.val, Popt.kind]
  | bool q =>
    simp only [Popt.convert, Option.map_eq_some'] at hconv
    obtain ⟨a, ha, rfl⟩ := hconv
    simp [Popt.setCount, Popt.action, TclPoptBool.action, TclPopt.get_next_arg, hne, hat,
      Popt.wrap, Hooks.default, TclPoptBool.action_bool, Popt.toTclPopt, Popt.val,
      TclPoptBool.val, Popt.kind, ha]
  | int q =>
    simp only [Popt.convert, Option.map_eq_some'] at hconv
    obtain ⟨a, ha, rfl⟩ := hconv
    simp [Popt.setCount, Popt.action, TclPoptInt.action, TclPopt.get_next_arg, hne, hat,
      Popt.wrap, Hooks.default, TclPoptInt.action_int, Popt.toTclPopt, Popt.val,
      TclPoptInt.val, Popt.kind, ha]
  | uint q =>
    simp only [Popt.convert, Option.map_eq_some'] at hconv
    obtain ⟨a, ha, rfl⟩ := hconv
    simp [Popt.setCount, Popt.action, TclPoptUint.action, TclPopt.get_next_arg, hne, hat,
      Popt.wrap, Hooks.default, TclPoptUint.action_uint, Popt.toTclPopt, Popt.val,
      TclPoptUint.val, Popt.kind, ha]
  | long q =>
    simp only [Popt.convert, Option.map_eq_some'] at hconv
    obtain ⟨a, ha, rfl⟩ := hconv
    simp [Popt.setCount, Popt.action, TclPoptLong.action, TclPopt.get_next_arg, hne, hat,
      Popt.wrap, Hooks.default, TclPoptLong.action_long, Popt.toTclPopt, Popt.val,
      TclPoptLong.val, Popt.kind, ha]
  | ulong q =>
    simp only [Popt.convert, Option.map_eq_some'] at hconv
    obtain ⟨a, ha, rfl⟩ := hconv
    simp [Popt.setCount, Popt.action, TclPoptUlong.action, TclPopt.get_next_arg, hne, hat,
      Popt.wrap, Hooks.default, TclPoptUlong.action_ulong, Popt.toTclPopt, Popt.val,
      TclPoptUlong.val, Popt.kind, ha]
  | double q =>
    simp only [Popt.convert, Option.map_eq_some'] at hconv
    obtain ⟨a, ha, rfl⟩ := hconv
    simp [Popt.setCount, Popt.action, TclPoptDouble.action, TclPopt.get_next_arg, hne, hat,
      Popt.wrap, Hooks.default, TclPoptDouble.action_double, Popt.toTclPopt, Popt.val,
      TclPoptDouble.val, Popt.kind, ha]

/-- C1: for every typed option class and every token `t` that converts to `v`:
after `_init`, one `_action` with the cursor on `t` (default post-match
functions) returns `Ok` having consumed `t`, and then `is_specified()` is true,
`count()` is 1 and `val()` is `v`. -/
theorem C1_single_match (tcl : Conv) (p : Popt) (cmd : TclCmd) (opt_str : String)
    (args : TclObjVector) (rpos end_ : Nat) (t : TclObj) (v : Value)
    (hne : rpos ≠ end_) (hat : args[rpos]? = some t) (hconv : p.convert tcl t = some v) :
    ∃ p1 cmd1, Popt._action tcl Hooks.default opt_str args rpos end_
          (p._init Hooks.default cmd).1 (p._init Hooks.default cmd).2
        = some (.Ok, rpos + 1, p1, cmd1) ∧
      p1.is_specified = true ∧ p1.count = 1 ∧ p1.val = some v := by
  have hconv0 : (p.setCount 0).convert tcl t = some v := by
    rw [Popt.convert_of_kind tcl _ p (Popt.kind_setCount 0 p)]; exact hconv
  obtain ⟨p1, h1, hb, hv, _⟩ := Popt._action_convertible tcl (p.setCount 0) cmd opt_str args
    rpos end_ t v (by simp [Popt.toTclPopt_setCount]) hne hat hconv0
  refine ⟨p1, cmd, ?_, ?_, ?_, hv⟩
  · simpa [Popt._init, Hooks.default, TclPopt.init] using h1
  · simp [Popt.is_specified, TclPopt.is_specified, TclPopt.count, hb, Popt.toTclPopt_setCount,
      wrapInt_one]
  · simp [Popt.count, TclPopt.count, hb, Popt.toTclPopt_setCount, wrapInt_one]

/-- C1 at the sample `int` option `-n` on `-n 5 -n 6`, cursor on `5`. -/
theorem C1_single_match_witness :
    ∃ p1 cmd1, Popt._action sampleConv Hooks.default "-n" argsN 1 4
          (optN._init Hooks.default cmd0).1 (optN._init Hooks.default cmd0).2
        = some (.Ok, 1 + 1, p1, cmd1) ∧
      p1.is_specified = true ∧ p1.count = 1 ∧ p1.val = some (.int 5) :=
  C1_single_match sampleConv optN cmd0 "-n" argsN 1 4 ⟨"5"⟩ (.int 5) (by decide) rfl rfl

/-- A call of `_action` on an option that forbids overriding and has already
been matched is rejected before anything else is looked at. -/
theorem Popt._action_duplicate (tcl : Conv) (h : Hooks) (p : Popt) (cmd : TclCmd)
    (opt_str : String) (args : TclObjVector) (rpos end_ : Nat)
    (hov : p.toTclPopt.mAllowOverride = false) (hcnt : 0 < p.toTclPopt.mCount) :
    Popt._action tcl h opt_str args rpos end_ p cmd
      = some (.Error, rpos, p, set_result (opt_str ++ ": specified more than once") cmd) := by
  simp [Popt._action, hov, hcnt]

/-- C2: for every option that forbids overriding: after `_init`, a first
`_action` on a convertible argument returns `Ok`; a second `_action` with the
same option string (wherever its cursor stands) returns `Error`, consumes
nothing, writes "<token>: specified more than once", and leaves `count()` at 1
and `val()` at the value converted from the first argument.  An option of the
base class, which takes no argument, is rejected the second time in the same
way. -/
theorem C2_duplicate_rejected (tcl : Conv) (p : Popt) (cmd : TclCmd) (opt_str : String)
    (args : TclObjVector) (rpos rpos2 end_ : Nat) (t : TclObj) (v : Value)
    (hov : p.toTclPopt.mAllowOverride = false)
    (hne : rpos ≠ end_) (hat : args[rpos]? = some t) (hconv : p.convert tcl t = some v) :
    (∃ p1 cmd1, Popt._action tcl Hooks.default opt_str args rpos end_
          (p._init Hooks.default cmd).1 (p._init Hooks.default cmd).2
        = some (.Ok, rpos + 1, p1, cmd1) ∧
      Popt._action tcl Hooks.default opt_str args rpos2 end_ p1 cmd1
        = some (.Error, rpos2, p1,
            set_result (opt_str ++ ": specified more than once") cmd1) ∧
      (set_result (opt_str ++ ": specified more than once") cmd1).result
        = opt_str ++ ": specified more than once" ∧
      p1.count = 1 ∧ p1.val = some v) ∧
    (∀ q : TclPopt, q.mAllowOverride = false →
      ∃ p1 cmd1, Popt._action tcl Hooks.default opt_str args rpos end_
            ((Popt.base q)._init Hooks.default cmd).1 ((Popt.base q)._init Hooks.default cmd).2
          = some (.Ok, rpos, p1, cmd1) ∧
        Popt._action tcl Hooks.default opt_str args rpos2 end_ p1 cmd1
          = some (.Error, rpos2, p1,
              set_result (opt_str ++ ": specified more than once") cmd1) ∧
        p1.count = 1) := by
  constructor
  · have hconv0 : (p.setCount 0).convert tcl t = some v := by
      rw [Popt.convert_of_kind tcl _ p (Popt.kind_setCount 0 p)]; exact hconv
    obtain ⟨p1, h1, hb, hv, _⟩ := Popt._action_convertible tcl (p.setCount 0) cmd opt_str args
      rpos end_ t v (by simp [Popt.toTclPopt_setCount]) hne hat hconv0
    refine ⟨p1, cmd, ?_, ?_, rfl, ?_, hv⟩
    · simpa [Popt._init, Hooks.default, TclPopt.init] using h1
    · apply Popt._action_duplicate
      · simp [hb, Popt.toTclPopt_setCount, hov]
      · simp [hb, Popt.toTclPopt_setCount, wrapInt_one]
    · simp [Popt.count, TclPopt.count, hb, Popt.toTclPopt_setCount, wrapInt_one]
  · intro q hq
    refine ⟨.base { q with mCount := 1 }, cmd, ?_, ?_, rfl⟩
    · simp [Popt._init, Hooks.default, TclPopt.init, Popt._action, Popt.setCount,
        Popt.toTclPopt, Popt.action, TclPopt.action, Popt.wrap, wrapInt_one]
    · apply Popt._action_duplicate
      · simpa [Popt.toTclPopt] using hq
      · simp [Popt.toTclPopt]

/-- C2 at the sample `int` option `-n` on `-n 5 -n 6`: the first match stores 5,
the second is rejected, `count()` is 1 and `val()` is 5. -/
theorem C2_duplicate_rejected_witness :
    ∃ p1 cmd1, Popt._action sampleConv Hooks.default "-n" argsN 1 4
          (optN._init Hooks.default cmd0).1 (optN._init Hooks.default cmd0).2
        = some (.Ok, 1 + 1, p1, cmd1) ∧
      Popt._action sampleConv Hooks.default "-n" argsN 3 4 p1 cmd1
        = some (.Error, 3, p1, set_result ("-n" ++ ": specified more than once") cmd1) ∧
      (set_result ("-n" ++ ": specified more than once") cmd1).result
        = "-n" ++ ": specified more than once" ∧
      p1.count = 1 ∧ p1.val = some (.int 5) :=
  (C2_duplicate_rejected sampleConv optN cmd0 "-n" argsN 1 3 4 ⟨"5"⟩ (.int 5) rfl
    (by decide) rfl rfl).1

/-- With overriding allowed, a run of `_action` calls whose cursors all stand on
convertible tokens returns `Ok` every time, adds the number of calls to the
count in `int` arithmetic, and stores the conversion of the last token. -/
theorem Popt.actions_override (tcl : Conv) (opt_str : String) (args : TclObjVector)
    (end_ : Nat) (cs : List Nat) :
    ∀ (p : Popt) (cmd : TclCmd), p.toTclPopt.mAllowOverride = true →
      wrapInt p.toTclPopt.mCount = p.toTclPopt.mCount →
      (∀ c ∈ cs, c ≠ end_ ∧ ∃ t, args[c]? = some t ∧ (p.convert tcl t).isSome = true) →
      ∃ p1, Popt.actions tcl Hooks.default opt_str args end_ cs p cmd
          = some (List.replicate cs.length .Ok, p1, cmd) ∧
        p1.toTclPopt.mCount = wrapInt (p.toTclPopt.mCount + cs.length) ∧
        p1.kind = p.kind ∧
        ∀ hN : cs ≠ [], ∃ t, args[cs.getLast hN]? = some t ∧ p1.val = p.convert tcl t := by
  induction cs with
  | nil =>
    intro p cmd _ hr _
    exact ⟨p, by simp [Popt.actions], by simpa using hr.symm, rfl, fun hN => absurd rfl hN⟩
  | cons c rest ih =>
    intro p cmd hov _ hall
    obtain ⟨hne, t, hat, hsome⟩ := hall c (List.mem_cons_self _ _)
    obtain ⟨v, hv⟩ := Option.isSome_iff_exists.mp hsome
    obtain ⟨p1, h1, hb, hval, hk⟩ := Popt._action_convertible tcl p cmd opt_str args
      c end_ t v (by simp [hov]) hne hat hv
    have hov1 : p1.toTclPopt.mAllowOverride = true := by rw [hb]; exact hov
    have hc1 : p1.toTclPopt.mCount = wrapInt (p.toTclPopt.mCount + 1) := by rw [hb]
    have hr1 : wrapInt p1.toTclPopt.mCount = p1.toTclPopt.mCount := by
      rw [hc1]
      exact wrapInt_eq_self _ (wrapInt_range _).1 (wrapInt_range _).2
    have hconv1 : p1.convert tcl = p.convert tcl := Popt.convert_of_kind tcl p1 p hk
    have hall1 : ∀ c ∈ rest, c ≠ end_ ∧
        ∃ t, args[c]? = some t ∧ (p1.convert tcl t).isSome = true := by
      intro c1 hc1
      rw [hconv1]
      exact hall c1 (List.mem_cons_of_mem _ hc1)
    obtain ⟨p2, h2, hcount2, hk2, hlast2⟩ := ih p1 cmd hov1 hr1 hall1
    refine ⟨p2, ?_, ?_, hk2.trans hk, ?_⟩
    · simp [Popt.actions, h1, h2, List.replicate_succ]
    · rw [hcount2, hc1, wrapInt_add_wrapInt]
      congr 1
      simp only [List.length_cons, Nat.cast_add, Nat.cast_one]
      ring
    · intro hN
      by_cases hrest : rest = []
      · subst hrest
        refine ⟨t, by simpa using hat, ?_⟩
        simp only [Popt.actions, Option.some.injEq, Prod.mk.injEq] at h2
        rw [← h2.2.1, hval, hv]
      · obtain ⟨t2, hat2, hval2⟩ := hlast2 hrest
        refine ⟨t2, ?_, ?_⟩
        · rw [List.getLast_cons hrest]; exact hat2
        · rw [hval2, hconv1]

/-- C3 fails as stated at `N = 2^31`: after `_init`, `2^31` successive matches of
the overridable sample option `-v`, each on the token `5`, all return `Ok`, but
the `int` counter has wrapped: `count()` is `INT_MIN`, not `N`, and
`is_specified()` is false. -/
theorem C3_counterexample :
    ∃ p1 cmd1, Popt.actions sampleConv Hooks.default "-v" argsN 4 manyMatches
          (optV._init Hooks.default cmd0).1 (optV._init Hooks.default cmd0).2
        = some (List.replicate manyMatches.length .Ok, p1, cmd1) ∧
      manyMatches.length = 2147483648 ∧
      p1.count = -2147483648 ∧ p1.count ≠ (manyMatches.length : Int) ∧
      p1.is_specified = false := by
  have hlen : manyMatches.length = 2147483648 := List.length_replicate _ _
  have hall : ∀ c ∈ manyMatches, c ≠ 4 ∧
      ∃ t, argsN[c]? = some t ∧ ((optV.setCount 0).convert sampleConv t).isSome = true := by
    intro c hc
    have hc1 : c = 1 := List.eq_of_mem_replicate hc
    subst hc1
    exact ⟨by decide, ⟨"5"⟩, rfl, rfl⟩
  obtain ⟨p1, h1, hcount, _, _⟩ := Popt.actions_override sampleConv "-v" argsN 4 manyMatches
    (optV.setCount 0) cmd0 rfl (by decide) hall
  have hc : p1.toTclPopt.mCount = -2147483648 := by
    rw [hcount, hlen]
    decide
  refine ⟨p1, cmd0, h1, hlen, hc, ?_, ?_⟩
  · show p1.toTclPopt.mCount ≠ _
    rw [hc, hlen]
    decide
  · show decide (p1.toTclPopt.mCount > 0) = false
    rw [hc]
    decide

/-- C3 (amended): for every typed option that allows overriding and every
N ≥ 1: after `_init`, N successive `_action` calls, each with the cursor on a
convertible token, all return `Ok` and leave `val()` equal to the conversion
of the token of the last call; `count()` is N in `int` arithmetic, which is N
itself for every N up to `INT_MAX = 2^31 - 1`. -/
theorem C3_override_last_wins (tcl : Conv) (p : Popt) (cmd : TclCmd) (opt_str : String)
    (args : TclObjVector) (end_ : Nat) (cs : List Nat) (hN : cs ≠ [])
    (hov : p.toTclPopt.mAllowOverride = true)
    (hall : ∀ c ∈ cs, c ≠ end_ ∧ ∃ t, args[c]? = some t ∧ (p.convert tcl t).isSome = true) :
    ∃ p1 cmd1, Popt.actions tcl Hooks.default opt_str args end_ cs
          (p._init Hooks.default cmd).1 (p._init Hooks.default cmd).2
        = some (List.replicate cs.length .Ok, p1, cmd1) ∧
      p1.count = wrapInt cs.length ∧
      (cs.length ≤ 2147483647 → p1.count = cs.length) ∧
      ∃ t, args[cs.getLast hN]? = some t ∧ p1.val = p.convert tcl t := by
  have hconv0 : (p.setCount 0).convert tcl = p.convert tcl :=
    Popt.convert_of_kind tcl _ p (Popt.kind_setCount 0 p)
  obtain ⟨p1, h1, hcount, _, hlast⟩ := Popt.actions_override tcl opt_str args end_ cs
    (p.setCount 0) cmd (by simp [Popt.toTclPopt_setCount, hov])
    (by simp only [Popt.toTclPopt_setCount]; decide) (by rw [hconv0]; exact hall)
  obtain ⟨t, hat, hval⟩ := hlast hN
  have hc : p1.count = wrapInt cs.length := by
    simpa [Popt.count, TclPopt.count, Popt.toTclPopt_setCount] using hcount
  refine ⟨p1, cmd, ?_, hc, ?_, t, hat, ?_⟩
  · simpa [Popt._init, Hooks.default, TclPopt.init] using h1
  · intro hle
    rw [hc]
    apply wrapInt_eq_self
    · unfold INT_MIN; omega
    · unfold INT_MAX; omega
  · rw [hval, hconv0]

/-- C3 (amended) at the sample `int` option `-v` (overriding allowed) matched
twice on `-n 5 -n 6`: both calls return `Ok`, `count()` is 2 and `val()` is the
conversion of `6`. -/
theorem C3_override_last_wins_witness :
    ∃ p1 cmd1, Popt.actions sampleConv Hooks.default "-n" argsN 4 [1, 3]
          (optV._init Hooks.default cmd0).1 (optV._init Hooks.default cmd0).2
        = some (List.replicate [1, 3].length .Ok, p1, cmd1) ∧
      p1.count = wrapInt [1, 3].length ∧
      p1.count = [1, 3].length ∧
      ∃ t, argsN[[1, 3].getLast (by decide)]? = some t ∧ p1.val = optV.convert sampleConv t := by
  obtain ⟨p1, cmd1, h1, h2, h3, h4⟩ :=
    C3_override_last_wins sampleConv optV cmd0 "-n" argsN 4 [1, 3] (by decide) rfl
      (by
        intro c hc
        simp only [List.mem_cons, List.mem_singleton, List.not_mem_nil, or_false] at hc
        rcases hc with rfl | rfl
        · exact ⟨by decide, ⟨"5"⟩, rfl, rfl⟩
        · exact ⟨by decide, ⟨"6"⟩, rfl, rfl⟩)
  exact ⟨p1, cmd1, h1, h2, h3 (by decide), h4⟩

/-- C4: for every typed option class, when `_action` passes the duplicate check
and the cursor equals `end`: the call returns `Error`, the result channel holds
exactly "<token>: no argument", the cursor still equals `end`, and `val()` is
what it was before the call.  No overridable function has any influence. -/
theorem C4_missing_argument (tcl : Conv) (h : Hooks) (p : Popt) (cmd : TclCmd)
    (opt_str : String) (args : TclObjVector) (end_ : Nat)
    (htyped : p.isTyped = true)
    (hdup : (!p.toTclPopt.mAllowOverride && decide (p.toTclPopt.mCount > 0)) = false) :
    Popt._action tcl h opt_str args end_ end_ p cmd
        = some (.Error, end_, p.setCount (wrapInt (p.toTclPopt.mCount + 1)),
            set_result (opt_str ++ ": no argument") cmd) ∧
      (set_result (opt_str ++ ": no argument") cmd).result = opt_str ++ ": no argument" ∧
      (p.setCount (wrapInt (p.toTclPopt.mCount + 1))).val = p.val := by
  refine ⟨?_, rfl, Popt.val_setCount _ p⟩
  unfold Popt._action
  rw [hdup]
  cases p with
  | base q => simp [Popt.isTyped, Popt.kind] at htyped
  | obj q =>
    simp [Popt.setCount, Popt.action, TclPoptObj.action, TclPopt.get_next_arg, Popt.wrap,
      Popt.toTclPopt]
  | str q =>
    simp [Popt.setCount, Popt.action, TclPoptStr.action, TclPopt.get_next_arg, Popt.wrap,
      Popt.toTclPopt]
  | bool q =>
    simp [Popt.setCount, Popt.action, TclPoptBool.action, TclPopt.get_next_arg, Popt.wrap,
      Popt.toTclPopt]
  | int q =>
    simp [Popt.setCount, Popt.action, TclPoptInt.action, TclPopt.get_next_arg, Popt.wrap,
      Popt.toTclPopt]
  | uint q =>
    simp [Popt.setCount, Popt.action, TclPoptUint.action, TclPopt.get_next_arg, Popt.wrap,
      Popt.toTclPopt]
  | long q =>
    simp [Popt.setCount, Popt.action, TclPoptLong.action, TclPopt.get_next_arg, Popt.wrap,
      Popt.toTclPopt]
  | ulong q =>
    simp [Popt.setCount, Popt.action, TclPoptUlong.action, TclPopt.get_next_arg, Popt.wrap,
      Popt.toTclPopt]
  | double q =>
    simp [Popt.setCount, Popt.action, TclPoptDouble.action, TclPopt.get_next_arg, Popt.wrap,
      Popt.toTclPopt]

/-- C4 at the sample `int` option `-n` matched as the last token of `-n`. -/
theorem C4_missing_argument_witness :
    Popt._action sampleConv Hooks.default "-n" [⟨"-n"⟩] 1 1 optN cmd0
        = some (.Error, 1, optN.setCount (wrapInt (optN.toTclPopt.mCount + 1)),
            set_result ("-n" ++ ": no argument") cmd0) ∧
      (set_result ("-n" ++ ": no argument") cmd0).result = "-n" ++ ": no argument" ∧
      (optN.setCount (wrapInt (optN.toTclPopt.mCount + 1))).val = optN.val :=
  C4_missing_argument sampleConv Hooks.default optN cmd0 "-n" [⟨"-n"⟩] 1 rfl rfl

/-- C5: for every converting class (bool, int, unsigned, long, unsigned long,
double) and every token on which the class's conversion routine reports
failure (the routine runs only after the duplicate check has passed):
`_action` returns `Error` having consumed the token, the result channel holds
"<token>" followed by the class's message, `val()` is the value stored before
the call, and the outcome is the same for every table of overridable functions,
so the post-match function is not invoked. -/
theorem C5_malformed_argument (tcl : Conv) (h : Hooks) (p : Popt) (cmd : TclCmd)
    (opt_str : String) (args : TclObjVector) (rpos end_ : Nat) (t : TclObj) (msg : String)
    (hk : (p.kind, msg) ∈
      [(Kind.bool, ": Needs an boolean value"),
       (Kind.int, ": Needs an integer value"),
       (Kind.uint, ": Needs an unsigned integer value"),
       (Kind.long, ": Needs a long integer value"),
       (Kind.ulong, ": Needs a long integer value"),
       (Kind.double, ": Needs a double floating value")])
    (hdup : (!p.toTclPopt.mAllowOverride && decide (p.toTclPopt.mCount > 0)) = false)
    (hne : rpos ≠ end_) (hat : args[rpos]? = some t) (hfail : p.convert tcl t = none) :
    Popt._action tcl h opt_str args rpos end_ p cmd
        = some (.Error, rpos + 1, p.setCount (wrapInt (p.toTclPopt.mCount + 1)),
            set_result (opt_str ++ msg) cmd) ∧
      (set_result (opt_str ++ msg) cmd).result = opt_str ++ msg ∧
      (p.setCount (wrapInt (p.toTclPopt.mCount + 1))).val = p.val ∧
      ∀ h2 : Hooks, Popt._action tcl h2 opt_str args rpos end_ p cmd
        = Popt._action tcl h opt_str args rpos end_ p cmd := by
  have key : ∀ h1 : Hooks, Popt._action tcl h1 opt_str args rpos end_ p cmd
      = some (.Error, rpos + 1, p.setCount (wrapInt (p.toTclPopt.mCount + 1)),
          set_result (opt_str ++ msg) cmd) := by
    intro h1
    unfold Popt._action
    rw [hdup]
    cases p with
    | base q => simp [Popt.kind] at hk
    | obj q => simp [Popt.kind] at hk
    | str q => simp [Popt.kind] at hk
    | bool q =>
      simp only [Popt.kind, List.mem_cons, Prod.mk.injEq, List.mem_singleton,
        List.not_mem_nil, reduceCtorEq, false_and, or_false, false_or, true_and] at hk
      simp only [Popt.convert, Option.map_eq_none'] at hfail
      simp [Popt.setCount, Popt.action, TclPoptBool.action, TclPopt.get_next_arg, Popt.wrap,
        Popt.toTclPopt, hne, hat, hfail, hk]
    | int q =>
      simp only [Popt.kind, List.mem_cons, Prod.mk.injEq, List.mem_singleton,
        List.not_mem_nil, reduceCtorEq, false_and, or_false, false_or, true_and] at hk
      simp only [Popt.convert, Option.map_eq_none'] at hfail
      simp [Popt.setCount, Popt.action, TclPoptInt.action, TclPopt.get_next_arg, Popt.wrap,
        Popt.toTclPopt, hne, hat, hfail, hk]
    | uint q =>
      simp only [Popt.kind, List.mem_cons, Prod.mk.injEq, List.mem_singleton,
        List.not_mem_nil, reduceCtorEq, false_and, or_false, false_or, true_and] at hk
      simp only [Popt.convert, Option.map_eq_none'] at hfail
      simp [Popt.setCount, Popt.action, TclPoptUint.action, TclPopt.get_next_arg, Popt.wrap,
        Popt.toTclPopt, hne, hat, hfail, hk]
    | long q =>
      simp only [Popt.kind, List.mem_cons, Prod.mk.injEq, List.mem_singleton,
        List.not_mem_nil, reduceCtorEq, false_and, or_false, false_or, true_and] at hk
      simp only [Popt.convert, Option.map_eq_none'] at hfail
      simp [Popt.setCount, Popt.action, TclPoptLong.action, TclPopt.get_next_arg, Popt.wrap,
        Popt.toTclPopt, hne, hat, hfail, hk]
    | ulong q =>
      simp only [Popt.kind, List.mem_cons, Prod.mk.injEq, List.mem_singleton,
        List.not_mem_nil, reduceCtorEq, false_and, or_false, false_or, true_and] at hk
      simp only [Popt.convert, Option.map_eq_none'] at hfail
      simp [Popt.setCount, Popt.action, TclPoptUlong.action, TclPopt.get_next_arg, Popt.wrap,
        Popt.toTclPopt, hne, hat, hfail, hk]
    | double q =>
      simp only [Popt.kind, List.mem_cons, Prod.mk.injEq, List.mem_singleton,
        List.not_mem_nil, reduceCtorEq, false_and, or_false, false_or, true_and] at hk
      simp only [Popt.convert, Option.map_eq_none'] at hfail
      simp [Popt.setCount, Popt.action, TclPoptDouble.action, TclPopt.get_next_arg, Popt.wrap,
        Popt.toTclPopt, hne, hat, hfail, hk]
  exact ⟨key h, rfl, Popt.val_setCount _ p, fun h2 => (key h2).trans (key h).symm⟩

/-- C5 at the sample `bool` option `-b` on `-b banana`. -/
theorem C5_malformed_argument_witness :
    Popt._action sampleConv Hooks.default "-b" argsB 1 2 optB cmd0
        = some (.Error, 1 + 1, optB.setCount (wrapInt (optB.toTclPopt.mCount + 1)),
            set_result ("-b" ++ ": Needs an boolean value") cmd0) ∧
      (set_result ("-b" ++ ": Needs an boolean value") cmd0).result
        = "-b" ++ ": Needs an boolean value" ∧
      (optB.setCount (wrapInt (optB.toTclPopt.mCount + 1))).val = optB.val ∧
      ∀ h2 : Hooks, Popt._action sampleConv h2 "-b" argsB 1 2 optB cmd0
        = Popt._action sampleConv Hooks.default "-b" argsB 1 2 optB cmd0 :=
  C5_malformed_argument sampleConv Hooks.default optB cmd0 "-b" argsB 1 2 ⟨"banana"⟩
    ": Needs an boolean value" (by decide) rfl (by decide) rfl rfl

/-! ## Option groups: facts -/

/-- The counting loop of `check` computes the number of list entries whose
option is specified, added to the initial value of the counter. -/
theorem TclPoptGroup.foldl_count (f : PoptPtr → Bool) (l : List PoptPtr) (n : Int) :
    l.foldl (fun (count : Int) popt => if f popt then count + 1 else count) n
      = n + (l.countP f : Nat) := by
  induction l generalizing n with
  | nil => simp
  | cons a l ih =>
    simp only [List.foldl_cons, ih, List.countP_cons]
    by_cases ha : f a = true
    · simp only [ha, if_true, Nat.cast_add, Nat.cast_one]; ring
    · simp [ha]

/-- The result of `check` is: more than one list entry, counted with
multiplicity, refers to a specified option. -/
theorem TclPoptGroup.check_eq (heap : PoptPtr → Popt) (g : TclPoptGroup) :
    g.check heap = decide (1 < g.mPoptList.countP (fun popt => (heap popt).is_specified)) := by
  unfold TclPoptGroup.check
  simp only [TclPoptGroup.foldl_count (fun popt => (heap popt).is_specified), zero_add]
  congr 1
  exact propext (by omega)

/-- C8: for every option in every state, after `_init` (with any table of
overridable functions) `count()` is 0 and `is_specified()` is false; and
`check()` of any group is false once every option it points to has been
reset. -/
theorem C8_init_resets (h : Hooks) :
    (∀ (p : Popt) (cmd : TclCmd),
      (p._init h cmd).1.count = 0 ∧ (p._init h cmd).1.is_specified = false) ∧
    (∀ (heap : PoptPtr → Popt) (cmds : PoptPtr → TclCmd) (g : TclPoptGroup),
      g.check (fun popt => ((heap popt)._init h (cmds popt)).1) = false) := by
  have h1 : ∀ (p : Popt) (cmd : TclCmd),
      (p._init h cmd).1.count = 0 ∧ (p._init h cmd).1.is_specified = false := by
    intro p cmd
    simp [Popt._init, Popt.count, Popt.is_specified, TclPopt.is_specified, TclPopt.count,
      Popt.toTclPopt_setCount]
  refine ⟨h1, ?_⟩
  intro heap cmds g
  rw [TclPoptGroup.check_eq]
  have hz : g.mPoptList.countP
      (fun popt => ((heap popt)._init h (cmds popt)).1.is_specified) = 0 := by
    rw [List.countP_eq_zero]
    intro a _
    simp [(h1 (heap a) (cmds a)).2]
  simp [hz]

/-! ## Option subsystem: the match counter -/

/-- The virtual `action` of every class returns (given a cursor that is at `end`
or inside the vector) and leaves the base-class members untouched, whatever it
returns and whatever the overridable functions are. -/
theorem Popt.action_returns (tcl : Conv) (h : Hooks) (opt_str : String) (args : TclObjVector)
    (rpos end_ : Nat) (p : Popt) (cmd : TclCmd)
    (hvalid : rpos = end_ ∨ rpos < args.length) :
    ∃ r, Popt.action tcl h opt_str args rpos end_ p cmd = some r ∧
      r.2.2.1.toTclPopt = p.toTclPopt := by
  by_cases hr : rpos = end_
  · cases p <;>
      simp [Popt.action, TclPopt.action, TclPoptObj.action, TclPoptStr.action,
        TclPoptBool.action, TclPoptInt.action, TclPoptUint.action, TclPoptLong.action,
        TclPoptUlong.action, TclPoptDouble.action, TclPopt.get_next_arg, Popt.wrap,
        Popt.toTclPopt, hr]
  · have hlt : rpos < args.length := hvalid.resolve_left hr
    have hat : args[rpos]? = some args[rpos] := List.getElem?_eq_getElem hlt
    cases p with
    | base q => simp [Popt.action, TclPopt.action, Popt.wrap, Popt.toTclPopt]
    | obj q =>
      simp [Popt.action, TclPoptObj.action, TclPopt.get_next_arg, Popt.wrap, Popt.toTclPopt,
        hr, hat]
    | str q =>
      simp [Popt.action, TclPoptStr.action, TclPopt.get_next_arg, Popt.wrap, Popt.toTclPopt,
        hr, hat]
    | bool q =>
      cases hc : tcl.bool_conv args[rpos] <;>
        simp [Popt.action, TclPoptBool.action, TclPopt.get_next_arg, Popt.wrap,
          Popt.toTclPopt, hr, hat, hc]
    | int q =>
      cases hc : tcl.int_conv args[rpos] <;>
        simp [Popt.action, TclPoptInt.action, TclPopt.get_next_arg, Popt.wrap,
          Popt.toTclPopt, hr, hat, hc]
    | uint q =>
      cases hc : tcl.uint_conv args[rpos] <;>
        simp [Popt.action, TclPoptUint.action, TclPopt.get_next_arg, Popt.wrap,
          Popt.toTclPopt, hr, hat, hc]
    | long q =>
      cases hc : tcl.long_conv args[rpos] <;>
        simp [Popt.action, TclPoptLong.action, TclPopt.get_next_arg, Popt.wrap,
          Popt.toTclPopt, hr, hat, hc]
    | ulong q =>
      cases hc : tcl.ulong_conv args[rpos] <;>
        simp [Popt.action, TclPoptUlong.action, TclPopt.get_next_arg, Popt.wrap,
          Popt.toTclPopt, hr, hat, hc]
    | double q =>
      cases hc : tcl.double_conv args[rpos] <;>
        simp [Popt.action, TclPoptDouble.action, TclPopt.get_next_arg, Popt.wrap,
          Popt.toTclPopt, hr, hat, hc]

/-- One call of `_action` returns, and changes the count as the duplicate check
decides: unchanged when the call is rejected, incremented in `int` arithmetic
otherwise. -/
theorem Popt._action_count (tcl : Conv) (h : Hooks) (opt_str : String) (args : TclObjVector)
    (rpos end_ : Nat) (p : Popt) (cmd : TclCmd)
    (hvalid : rpos = end_ ∨ rpos < args.length) :
    ∃ st rpos1 p1 cmd1, Popt._action tcl h opt_str args rpos end_ p cmd
        = some (st, rpos1, p1, cmd1) ∧
      p1.count = (if p.toTclPopt.mAllowOverride = false ∧ p.count > 0 then p.count
        else wrapInt (p.count + 1)) := by
  unfold Popt._action
  by_cases hdup : (!p.toTclPopt.mAllowOverride && decide (p.toTclPopt.mCount > 0)) = true
  · rw [if_pos hdup]
    refine ⟨_, _, _, _, rfl, ?_⟩
    simp only [Bool.and_eq_true, Bool.not_eq_true', decide_eq_true_eq] at hdup
    rw [if_pos ⟨hdup.1, hdup.2⟩]
  · rw [if_neg hdup]
    obtain ⟨⟨st, rpos1, p1, cmd1⟩, h1, hb⟩ := Popt.action_returns tcl h opt_str args rpos
      end_ (p.setCount (wrapInt (p.toTclPopt.mCount + 1))) cmd hvalid
    simp only at hb
    refine ⟨st, rpos1, p1, cmd1, h1, ?_⟩
    simp only [Bool.and_eq_true, Bool.not_eq_true', decide_eq_true_eq] at hdup
    rw [if_neg (by simpa [Popt.count, TclPopt.count] using hdup)]
    simp [Popt.count, TclPopt.count, hb, Popt.toTclPopt_setCount]

/-- C9 fails as stated at `count() == INT_MAX`: one more match of the
overridable sample option `-v` returns `Ok` and stores 5, but `count()` goes
from 2147483647 to -2147483648: it is not the count before plus 1, it has
decreased, and `is_specified()` is false. -/
theorem C9_counterexample :
    Popt._action sampleConv Hooks.default "-v" argsN 1 4 optMax cmd0
      = some (.Ok, 2,
          .int { mOptStr := "-v", mOptDesc := "level", mArgDesc := "<int>",
                 mAllowOverride := true, mCount := -2147483648, mVal := 5 }, cmd0) ∧
    optMax.count = 2147483647 ∧
    (Popt.int { mOptStr := "-v", mOptDesc := "level", mArgDesc := "<int>",
                mAllowOverride := true, mCount := -2147483648, mVal := 5 }).count
      ≠ optMax.count + 1 ∧
    (Popt.int { mOptStr := "-v", mOptDesc := "level", mArgDesc := "<int>",
                mAllowOverride := true, mCount := -2147483648, mVal := 5 }).count
      < optMax.count ∧
    (Popt.int { mOptStr := "-v", mOptDesc := "level", mArgDesc := "<int>",
                mAllowOverride := true, mCount := -2147483648, mVal := 5 }).is_specified
      = false := by
  refine ⟨?_, rfl, by decide, by decide, by decide⟩
  rfl

/-- C9 (amended): every call of `_action` (cursor at `end` or inside the
vector, any overridable functions) returns; if overriding is forbidden and
`count() > 0` before the call, `count()` is unchanged, otherwise it is the
count before plus 1 in `int` arithmetic, which is exactly one more whenever
the count before is an `int` below `INT_MAX`, whether the result is `Ok` or
`Error`.  Hence `count()` does not decrease over any sequence of calls that
keeps it within `INT_MAX`, and after a first call (count 0 before) that
returned `Error`, `is_specified()` is true. -/
theorem C9_count_steps (tcl : Conv) (h : Hooks) (opt_str : String) (args : TclObjVector)
    (end_ : Nat) :
    (∀ (rpos : Nat) (p : Popt) (cmd : TclCmd), rpos = end_ ∨ rpos < args.length →
      ∃ st rpos1 p1 cmd1, Popt._action tcl h opt_str args rpos end_ p cmd
          = some (st, rpos1, p1, cmd1) ∧
        p1.count = (if p.toTclPopt.mAllowOverride = false ∧ p.count > 0 then p.count
          else wrapInt (p.count + 1)) ∧
        (INT_MIN ≤ p.count → p.count < INT_MAX →
          p1.count = (if p.toTclPopt.mAllowOverride = false ∧ p.count > 0 then p.count
            else p.count + 1)) ∧
        (p.count = 0 → st = .Error → p1.is_specified = true)) ∧
    (∀ (cs : List Nat) (p : Popt) (cmd : TclCmd), (∀ c ∈ cs, c = end_ ∨ c < args.length) →
      INT_MIN ≤ p.count → p.count + cs.length ≤ INT_MAX →
      ∃ sts p1 cmd1, Popt.actions tcl h opt_str args end_ cs p cmd = some (sts, p1, cmd1) ∧
        p.count ≤ p1.count) := by
  have hstep : ∀ (rpos : Nat) (p : Popt) (cmd : TclCmd), rpos = end_ ∨ rpos < args.length →
      ∃ st rpos1 p1 cmd1, Popt._action tcl h opt_str args rpos end_ p cmd
          = some (st, rpos1, p1, cmd1) ∧
        p1.count = (if p.toTclPopt.mAllowOverride = false ∧ p.count > 0 then p.count
          else wrapInt (p.count + 1)) ∧
        (INT_MIN ≤ p.count → p.count < INT_MAX →
          p1.count = (if p.toTclPopt.mAllowOverride = false ∧ p.count > 0 then p.count
            else p.count + 1)) := by
    intro rpos p cmd hvalid
    obtain ⟨st, rpos1, p1, cmd1, h1, hc⟩ :=
      Popt._action_count tcl h opt_str args rpos end_ p cmd hvalid
    refine ⟨st, rpos1, p1, cmd1, h1, hc, ?_⟩
    intro hlo hhi
    rw [hc]
    have hw : wrapInt (p.count + 1) = p.count + 1 :=
      wrapInt_eq_self _ (by unfold INT_MIN at *; omega) (by unfold INT_MAX at *; omega)
    rw [hw]
  constructor
  · intro rpos p cmd hvalid
    obtain ⟨st, rpos1, p1, cmd1, h1, hc, hb⟩ := hstep rpos p cmd hvalid
    refine ⟨st, rpos1, p1, cmd1, h1, hc, hb, ?_⟩
    intro h0 _
    have h1c : p1.count = 1 := by rw [hc, h0]; simp [wrapInt_one]
    simp only [Popt.count] at h1c
    simp [Popt.is_specified, TclPopt.is_specified, h1c]
  · intro cs
    induction cs with
    | nil => intro p cmd _ _ _; exact ⟨[], p, cmd, rfl, le_refl _⟩
    | cons c rest ih =>
      intro p cmd hall hlo hhi
      simp only [List.length_cons, Nat.cast_add, Nat.cast_one] at hhi
      obtain ⟨st, rpos1, p1, cmd1, h1, _, hb⟩ := hstep c p cmd (hall c (List.mem_cons_self _ _))
      have hc := hb hlo (by unfold INT_MAX at *; omega)
      have hle : p.count ≤ p1.count := by
        rw [hc]; split <;> omega
      have hle1 : p1.count ≤ p.count + 1 := by
        rw [hc]; split <;> omega
      obtain ⟨sts, p2, cmd2, h2, hle2⟩ :=
        ih p1 cmd1 (fun c1 hc1 => hall c1 (List.mem_cons_of_mem _ hc1))
          (le_trans hlo hle) (by omega)
      exact ⟨st :: sts, p2, cmd2, by simp [Popt.actions, h1, h2], hle.trans hle2⟩

/-- C9 (amended) at the sample option `-n` matched as the last token (the call
returns and the count goes from 0 to 1), and over two such calls in a row. -/
theorem C9_count_steps_witness :
    (∃ st rpos1 p1 cmd1, Popt._action sampleConv Hooks.default "-n" [⟨"-n"⟩] 1 1 optN cmd0
          = some (st, rpos1, p1, cmd1) ∧
        p1.count = (if optN.toTclPopt.mAllowOverride = false ∧ optN.count > 0 then optN.count
          else wrapInt (optN.count + 1)) ∧
        p1.count = (if optN.toTclPopt.mAllowOverride = false ∧ optN.count > 0 then optN.count
          else optN.count + 1) ∧
        (optN.count = 0 → st = .Error → p1.is_specified = true)) ∧
    (∃ sts p1 cmd1, Popt.actions sampleConv Hooks.default "-n" [⟨"-n"⟩] 1 [1, 1] optN cmd0
          = some (sts, p1, cmd1) ∧
        optN.count ≤ p1.count) := by
  obtain ⟨st, rpos1, p1, cmd1, h1, h2, h3, h4⟩ :=
    (C9_count_steps sampleConv Hooks.default "-n" [⟨"-n"⟩] 1).1 1 optN cmd0 (Or.inl rfl)
  exact ⟨⟨st, rpos1, p1, cmd1, h1, h2, h3 (by decide) (by decide), h4⟩,
    (C9_count_steps sampleConv Hooks.default "-n" [⟨"-n"⟩] 1).2 [1, 1] optN cmd0
      (by intro c hc; simp at hc; exact Or.inl hc) (by decide) (by decide)⟩

/-! ## Variable traces: the binding invariant -/

/-- C10 fails on the code: after the two-name `bind` with `name2 = ""` succeeds,
`unbind` issues the one-name removal request, which matches no watch; the
handle is null while the engine still holds the watch registered for this
object.  The one-name `bind` followed by `unbind` leaves no watch. -/
theorem C10_binding_invariant_broken :
    Sys.run tclH TclVarTrace.vartrace_proc 7 (Sys.fresh 0 ⟨[]⟩)
        [.bind2 1 "a" "" 0 0, .unbind]
      = some { obj := { mInterp := none, mName1 := "a", mName2 := "", mFlags := 0 },
               engine := ⟨[⟨1, "a", some "", 0x40, 7⟩]⟩ } ∧
    ¬ Sys.consistent tclH 7
        { obj := { mInterp := none, mName1 := "a", mName2 := "", mFlags := 0 },
          engine := ⟨[⟨1, "a", some "", 0x40, 7⟩]⟩ } ∧
    Sys.run tclH TclVarTrace.vartrace_proc 7 (Sys.fresh 0 ⟨[]⟩)
        [.bind 1 "a" 0 0, .unbind]
      = some { obj := { mInterp := none, mName1 := "a", mName2 := "", mFlags := 0 },
               engine := ⟨[]⟩ } := by
  refine ⟨by decide, ?_, by decide⟩
  simp [Sys.consistent, TclVarTrace.interp, Engine.regsOf]

theorem Engine.regsOf_append_own (e : Engine) (this : ClientData) (w : Watch)
    (hw : w.clientData = this) :
    Engine.regsOf { e with regs := e.regs ++ [w] } this = e.regsOf this ++ [w] := by
  simp [Engine.regsOf, List.filter_append, hw]

theorem Engine.regsOf_unregister (e : Engine) (this : ClientData) (w : Watch) :
    (e.unregister_watch w).regsOf this = (e.regsOf this).erase w := by
  simp [Engine.regsOf, Engine.unregister_watch, List.erase_filter]

/-- What `unbind` does to a bound object: it asks the engine to remove
`unbindWatch` and clears the handle. -/
theorem TclVarTrace.unbind_bound (k : TclH) (this : ClientData) (self : TclVarTrace)
    (e : Engine) (interp : InterpPtr) (hb : self.interp = some interp) :
    self.unbind k this e
      = (self.set_interp none, e.unregister_watch (self.unbindWatch k this interp)) := by
  unfold TclVarTrace.unbind
  rw [hb]
  by_cases h2 : self.mName2 = ""
  · simp [h2, Tcl_UntraceVar, TclVarTrace.unbindWatch]
  · simp [h2, Tcl_UntraceVar2, TclVarTrace.unbindWatch]

/-- What the trampoline does when the interpreter it is given is the recorded
handle: the hook runs, on the object as it is, unless the call carries the
UNSET bit and the recorded flags lack it; the handle is cleared exactly when
the call carries the destroyed bit. -/
theorem TclVarTrace.vartrace_callback_bound (k : TclH)
    (vartrace_proc : TclVarTrace → String → Option String → Nat → Option String)
    (trace_obj : TclVarTrace) (interp : InterpPtr) (name1 : String) (name2 : Option String)
    (flags : Nat) (hi : trace_obj.interp = some interp) :
    TclVarTrace.vartrace_callback k vartrace_proc trace_obj interp name1 name2 flags
      = some
          (if flags &&& k.TCL_TRACE_UNSETS = 0 ∨
              trace_obj.flags &&& k.TCL_TRACE_UNSETS = k.TCL_TRACE_UNSETS then
            vartrace_proc trace_obj name1 name2 flags
          else none,
           if flags &&& k.TCL_TRACE_DESTROYED ≠ 0 then trace_obj.set_interp none
           else trace_obj) := by
  simp [TclVarTrace.vartrace_callback, hi]

/-- The maintained form of the invariant implies the stated one. -/
theorem Sys.paired_consistent (k : TclH) (this : ClientData) (s : Sys)
    (hp : s.paired k this) : s.consistent k this := by
  rcases hp with ⟨interp, hi, hr⟩ | hn
  · left
    refine ⟨interp, _, hi, hr, rfl, rfl, ?_, rfl⟩
    by_cases h2 : s.obj.mName2 = ""
    · simp [TclVarTrace.unbindWatch, h2]
    · simp [TclVarTrace.unbindWatch, h2]
  · right; exact hn

/-- One event other than the two-name `bind` with an empty `name2` keeps the
invariant. -/
theorem Sys.step_paired (k : TclH)
    (vartrace_proc : TclVarTrace → String → Option String → Nat → Option String)
    (this : ClientData) (s s1 : Sys) (ev : Event) (hev : ev.name2Given = true)
    (hp : s.paired k this) (hstep : s.step k vartrace_proc this ev = some s1) :
    s1.paired k this := by
  cases ev with
  | bind interp name1 flags status =>
    simp only [Sys.step, Option.some.injEq] at hstep
    subst hstep
    rcases hp with ⟨i0, hi, hr⟩ | ⟨hn, hr⟩
    · left
      refine ⟨i0, ?_, ?_⟩ <;>
        simp_all [TclVarTrace.bind, TclVarTrace.is_bound, TclVarTrace.interp]
    · by_cases hs : status = k.TCL_OK
      · left
        refine ⟨interp, ?_, ?_⟩
        · simp_all [TclVarTrace.bind, TclVarTrace.is_bound, TclVarTrace.interp,
            Tcl_TraceVar, Engine.register_watch, TclVarTrace.set_interp]
        · have := Engine.regsOf_append_own s.engine this
            ⟨interp, name1, none, flags ||| k.TCL_TRACE_UNSETS, this⟩ rfl
          simp_all [TclVarTrace.bind, TclVarTrace.is_bound, TclVarTrace.interp,
            Tcl_TraceVar, Engine.register_watch, TclVarTrace.set_interp,
            TclVarTrace.unbindWatch]
      · right
        simp_all [TclVarTrace.bind, TclVarTrace.is_bound, TclVarTrace.interp,
          Tcl_TraceVar, Engine.register_watch, TclVarTrace.set_interp]
  | bind2 interp name1 name2 flags status =>
    simp only [Event.name2Given, decide_eq_true_eq] at hev
    simp only [Sys.step, Option.some.injEq] at hstep
    subst hstep
    rcases hp with ⟨i0, hi, hr⟩ | ⟨hn, hr⟩
    · left
      refine ⟨i0, ?_, ?_⟩ <;>
        simp_all [TclVarTrace.bind2, TclVarTrace.is_bound, TclVarTrace.interp]
    · by_cases hs : status = k.TCL_OK
      · left
        refine ⟨interp, ?_, ?_⟩
        · simp_all [TclVarTrace.bind2, TclVarTrace.is_bound, TclVarTrace.interp,
            Tcl_TraceVar2, Engine.register_watch, TclVarTrace.set_interp]
        · have := Engine.regsOf_append_own s.engine this
            ⟨interp, name1, some name2, flags ||| k.TCL_TRACE_UNSETS, this⟩ rfl
          simp_all [TclVarTrace.bind2, TclVarTrace.is_bound, TclVarTrace.interp,
            Tcl_TraceVar2, Engine.register_watch, TclVarTrace.set_interp,
            TclVarTrace.unbindWatch]
      · right
        simp_all [TclVarTrace.bind2, TclVarTrace.is_bound, TclVarTrace.interp,
          Tcl_TraceVar2, Engine.register_watch, TclVarTrace.set_interp]
  | unbind =>
    simp only [Sys.step, Option.some.injEq] at hstep
    subst hstep
    rcases hp with ⟨i0, hi, hr⟩ | ⟨hn, hr⟩
    · right
      rw [TclVarTrace.unbind_bound k this s.obj s.engine i0 hi]
      refine ⟨rfl, ?_⟩
      simp [Engine.regsOf_unregister, hr]
    · right
      have hu : s.obj.unbind k this s.engine = (s.obj, s.engine) := by
        simp [TclVarTrace.unbind, hn]
      rw [hu]
      exact ⟨hn, hr⟩
  | callback w name1 name2 flags =>
    simp only [Sys.step] at hstep
    split at hstep
    · rename_i hw
      have hmem : w ∈ s.engine.regsOf this := by
        simp [Engine.regsOf, List.mem_filter, hw.1, hw.2]
      rcases hp with ⟨i0, hi, hr⟩ | ⟨hn, hr⟩
      · rw [hr, List.mem_singleton] at hmem
        have hwi : w.interp = i0 := by rw [hmem]; rfl
        rw [hwi, TclVarTrace.vartrace_callback_bound k vartrace_proc s.obj i0 name1 name2
          flags hi] at hstep
        simp only [Option.some.injEq] at hstep
        subst hstep
        by_cases hd : flags &&& k.TCL_TRACE_DESTROYED = 0
        · left
          refine ⟨i0, ?_, ?_⟩
          · simpa [hd] using hi
          · simpa [hd] using hr
        · right
          refine ⟨?_, ?_⟩
          · simp [hd, TclVarTrace.set_interp, TclVarTrace.interp]
          · simp [hd, Engine.regsOf_unregister, hr, hmem]
      · rw [hr] at hmem
        exact absurd hmem (List.not_mem_nil _)
    · exact absurd hstep (by simp)

/-- Apart from the two-name `bind` with an empty `name2`, the code keeps the
binding invariant: every state reached from a fresh object (next to an engine
that holds nothing for it) by `bind`, `unbind` and engine callbacks satisfies
it. -/
theorem Sys.run_consistent (k : TclH)
    (vartrace_proc : TclVarTrace → String → Option String → Nat → Option String)
    (this : ClientData) (mFlags : Nat) (e0 : Engine) (h0 : e0.regsOf this = [])
    (evs : List Event) (hevs : ∀ ev ∈ evs, ev.name2Given = true) (s : Sys)
    (hrun : Sys.run k vartrace_proc this (Sys.fresh mFlags e0) evs = some s) :
    s.consistent k this := by
  apply Sys.paired_consistent
  have hgen : ∀ (evs : List Event) (s0 : Sys), (∀ ev ∈ evs, ev.name2Given = true) →
      s0.paired k this → Sys.run k vartrace_proc this s0 evs = some s → s.paired k this := by
    intro evs
    induction evs with
    | nil =>
      intro s0 _ hp hr
      simp only [Sys.run, Option.some.injEq] at hr
      exact hr ▸ hp
    | cons ev rest ih =>
      intro s0 hall hp hr
      simp only [Sys.run] at hr
      cases hs : s0.step k vartrace_proc this ev with
      | none => simp [hs] at hr
      | some s1 =>
        simp only [hs] at hr
        exact ih s1 (fun e he => hall e (List.mem_cons_of_mem _ he))
          (Sys.step_paired k vartrace_proc this s0 s1 ev (hall ev (List.mem_cons_self _ _))
            hp hs) hr
  exact hgen evs (Sys.fresh mFlags e0) hevs
    (Or.inr ⟨rfl, h0⟩) hrun

/-! ## Variable traces: bind, unbind and the trampoline -/

/-- OR-ing a bit mask in makes it present. -/
theorem or_and_self_mask (f u : Nat) : (f ||| u) &&& u = u := by
  apply Nat.eq_of_testBit_eq
  intro i
  simp only [Nat.testBit_and, Nat.testBit_or]
  cases f.testBit i <;> cases u.testBit i <;> rfl

/-- The one-name `bind` on a bound object does nothing and returns `TCL_OK`. -/
theorem TclVarTrace.bind_bound (k : TclH) (this : ClientData) (self : TclVarTrace)
    (e : Engine) (interp0 interp : InterpPtr) (name1 : String) (flags : Nat) (status : Int)
    (hb : self.interp = some interp0) :
    self.bind k this e interp name1 flags status = (k.TCL_OK, self, e) := by
  simp [TclVarTrace.bind, TclVarTrace.is_bound, hb]

/-- The two-name `bind` on a bound object does nothing and returns `TCL_OK`. -/
theorem TclVarTrace.bind2_bound (k : TclH) (this : ClientData) (self : TclVarTrace)
    (e : Engine) (interp0 interp : InterpPtr) (name1 name2 : String) (flags : Nat)
    (status : Int) (hb : self.interp = some interp0) :
    self.bind2 k this e interp name1 name2 flags status = (k.TCL_OK, self, e) := by
  simp [TclVarTrace.bind2, TclVarTrace.is_bound, hb]

/-- The one-name `bind` on an unbound object: it records the names and flags,
asks the engine to register `bindWatch`, returns the engine's answer and
records the handle exactly when the answer is `TCL_OK`. -/
theorem TclVarTrace.bind_unbound (k : TclH) (this : ClientData) (self : TclVarTrace)
    (e : Engine) (interp : InterpPtr) (name1 : String) (flags : Nat) (status : Int)
    (hu : self.interp = none) :
    self.bind k this e interp name1 flags status
      = (status,
         { mInterp := if status = k.TCL_OK then some interp else none,
           mName1 := name1, mName2 := "", mFlags := flags },
         (e.register_watch k (TclVarTrace.bindWatch k this interp name1 flags) status).2) := by
  have hm : self.mInterp = none := hu
  by_cases hs : status = k.TCL_OK
  · simp [TclVarTrace.bind, TclVarTrace.is_bound, hu, Tcl_TraceVar, Engine.register_watch,
      TclVarTrace.bindWatch, TclVarTrace.set_interp, hs]
  · simp [TclVarTrace.bind, TclVarTrace.is_bound, hu, Tcl_TraceVar, Engine.register_watch,
      TclVarTrace.bindWatch, TclVarTrace.set_interp, hs, hm]

/-- The two-name `bind` on an unbound object, as `bind_unbound`, with the watch
`bind2Watch`. -/
theorem TclVarTrace.bind2_unbound (k : TclH) (this : ClientData) (self : TclVarTrace)
    (e : Engine) (interp : InterpPtr) (name1 name2 : String) (flags : Nat) (status : Int)
    (hu : self.interp = none) :
    self.bind2 k this e interp name1 name2 flags status
      = (status,
         { mInterp := if status = k.TCL_OK then some interp else none,
           mName1 := name1, mName2 := name2, mFlags := flags },
         (e.register_watch k (TclVarTrace.bind2Watch k this interp name1 name2 flags)
            status).2) := by
  have hm : self.mInterp = none := hu
  by_cases hs : status = k.TCL_OK
  · simp [TclVarTrace.bind2, TclVarTrace.is_bound, hu, Tcl_TraceVar2, Engine.register_watch,
      TclVarTrace.bind2Watch, TclVarTrace.set_interp, hs]
  · simp [TclVarTrace.bind2, TclVarTrace.is_bound, hu, Tcl_TraceVar2, Engine.register_watch,
      TclVarTrace.bind2Watch, TclVarTrace.set_interp, hs, hm]

/-- `unbind` on an unbound object does nothing. -/
theorem TclVarTrace.unbind_unbound (k : TclH) (this : ClientData) (self : TclVarTrace)
    (e : Engine) (hu : self.interp = none) : self.unbind k this e = (self, e) := by
  simp [TclVarTrace.unbind, hu]

/-- After a successful one-name `bind`, `unbind` names the watch that `bind`
registered. -/
theorem TclVarTrace.bind_unbind_same_watch (k : TclH) (this : ClientData)
    (interp : InterpPtr) (name1 : String) (flags : Nat) :
    TclVarTrace.unbindWatch k this
        { mInterp := some interp, mName1 := name1, mName2 := "", mFlags := flags } interp
      = TclVarTrace.bindWatch k this interp name1 flags := by
  simp [TclVarTrace.unbindWatch, TclVarTrace.bindWatch]

/-- After a successful two-name `bind` with a non-empty `name2`, `unbind` names
the watch that `bind` registered. -/
theorem TclVarTrace.bind2_unbind_same_watch (k : TclH) (this : ClientData)
    (interp : InterpPtr) (name1 name2 : String) (flags : Nat) (h2 : name2 ≠ "") :
    TclVarTrace.unbindWatch k this
        { mInterp := some interp, mName1 := name1, mName2 := name2, mFlags := flags } interp
      = TclVarTrace.bind2Watch k this interp name1 name2 flags := by
  simp [TclVarTrace.unbindWatch, TclVarTrace.bind2Watch, h2]

/-- C11 fails on the code: the two-name `bind` called with `name2 = ""` asks the
engine (whatever it holds) to register the watch `("a", name2 = "")`, and the
following `unbind` asks it to remove the watch `("a", no name2)`; the two
requests differ in `name2`. -/
theorem C11_unbind_names_other_watch :
    (∀ e : Engine, TclVarTrace.bind2 tclH 7 (TclVarTrace.new 0) e 1 "a" "" 0 0
      = (0, { mInterp := some 1, mName1 := "a", mName2 := "", mFlags := 0 },
          (e.register_watch tclH ⟨1, "a", some "", 0x40, 7⟩ 0).2)) ∧
    (∀ e : Engine,
      TclVarTrace.unbind tclH 7 { mInterp := some 1, mName1 := "a", mName2 := "", mFlags := 0 } e
        = ({ mInterp := none, mName1 := "a", mName2 := "", mFlags := 0 },
            e.unregister_watch ⟨1, "a", none, 0x40, 7⟩)) ∧
    (⟨1, "a", some "", 0x40, 7⟩ : Watch) ≠ ⟨1, "a", none, 0x40, 7⟩ := by
  refine ⟨?_, ?_, by decide⟩
  · intro e
    rw [TclVarTrace.bind2_unbound tclH 7 (TclVarTrace.new 0) e 1 "a" "" 0 0 rfl]
    rfl
  · intro e
    rw [TclVarTrace.unbind_bound tclH 7
      { mInterp := some 1, mName1 := "a", mName2 := "", mFlags := 0 } e 1 rfl]
    rfl

/-- C12 fails as stated: the trampoline decides on the UNSET bit of the incoming
flags, not on the destroyed bit.  With recorded flags lacking the UNSET bit, a
call carrying the UNSET bit without the destroyed bit does not run the hook,
and a call carrying the destroyed bit without the UNSET bit does run it. -/
theorem C12_counterexample :
    (0x40 &&& tclH.TCL_TRACE_DESTROYED = 0 ∧
      TclVarTrace.vartrace_callback tclH hookReport boundA 1 "a" none 0x40
        = some (none, boundA)) ∧
    (¬ (0x80 &&& tclH.TCL_TRACE_DESTROYED = 0 ∨
          boundA.flags &&& tclH.TCL_TRACE_UNSETS = tclH.TCL_TRACE_UNSETS) ∧
      TclVarTrace.vartrace_callback tclH hookReport boundA 1 "a" none 0x80
        = some (some "bound", boundA.set_interp none)) := by
  decide

/-- C12 (amended): for every trampoline call with incoming flags `f` on an
object whose recorded flags are `g` (the interpreter passed being the recorded
handle, as the trampoline asserts): the hook is invoked with
`(name1, name2, f)` exactly when the UNSET bit is absent from `f` or `g`
includes the UNSET bit; then the trampoline returns the hook's result,
otherwise it returns null. -/
theorem C12_hook_gate (k : TclH)
    (vartrace_proc : TclVarTrace → String → Option String → Nat → Option String)
    (trace_obj : TclVarTrace) (interp : InterpPtr) (name1 : String) (name2 : Option String)
    (f : Nat) (hi : trace_obj.interp = some interp) :
    ∃ obj1, TclVarTrace.vartrace_callback k vartrace_proc trace_obj interp name1 name2 f
      = some
          (if f &&& k.TCL_TRACE_UNSETS = 0 ∨
              trace_obj.flags &&& k.TCL_TRACE_UNSETS = k.TCL_TRACE_UNSETS then
            vartrace_proc trace_obj name1 name2 f
          else none, obj1) :=
  ⟨_, TclVarTrace.vartrace_callback_bound k vartrace_proc trace_obj interp name1 name2 f hi⟩

/-- C12 (amended) at the sample object with recorded UNSET bit, on a call that
carries the UNSET and destroyed bits. -/
theorem C12_hook_gate_witness :
    ∃ obj1, TclVarTrace.vartrace_callback tclH hookReport boundAx 1 "a" (some "x") 0xC0
      = some
          (if 0xC0 &&& tclH.TCL_TRACE_UNSETS = 0 ∨
              boundAx.flags &&& tclH.TCL_TRACE_UNSETS = tclH.TCL_TRACE_UNSETS then
            hookReport boundAx "a" (some "x") 0xC0
          else none, obj1) :=
  C12_hook_gate tclH hookReport boundAx 1 "a" (some "x") 0xC0 rfl

/-- C13: for every bound object and every trampoline call: when the incoming
flags carry the destroyed bit, the hook (if invoked) is applied to the object
with its handle still bound, afterwards the handle is null, and a later
`unbind` leaves every engine as it is; the trampoline itself is a function of
the object alone and reaches no engine.  When the flags lack the destroyed
bit the object, and so its handle, is unchanged. -/
theorem C13_destroyed_clears_handle (k : TclH)
    (vartrace_proc : TclVarTrace → String → Option String → Nat → Option String)
    (this : ClientData) (trace_obj : TclVarTrace) (interp : InterpPtr) (name1 : String)
    (name2 : Option String) (f : Nat) (hi : trace_obj.interp = some interp) :
    (f &&& k.TCL_TRACE_DESTROYED ≠ 0 →
      TclVarTrace.vartrace_callback k vartrace_proc trace_obj interp name1 name2 f
        = some
            (if f &&& k.TCL_TRACE_UNSETS = 0 ∨
                trace_obj.flags &&& k.TCL_TRACE_UNSETS = k.TCL_TRACE_UNSETS then
              vartrace_proc trace_obj name1 name2 f
            else none, trace_obj.set_interp none) ∧
      trace_obj.is_bound = true ∧
      (trace_obj.set_interp none).interp = none ∧
      (trace_obj.set_interp none).is_bound = false ∧
      ∀ e : Engine,
        (trace_obj.set_interp none).unbind k this e = (trace_obj.set_interp none, e)) ∧
    (f &&& k.TCL_TRACE_DESTROYED = 0 →
      ∃ res, TclVarTrace.vartrace_callback k vartrace_proc trace_obj interp name1 name2 f
        = some (res, trace_obj)) := by
  constructor
  · intro hd
    refine ⟨?_, by simp [TclVarTrace.is_bound, hi], rfl, rfl, ?_⟩
    · rw [TclVarTrace.vartrace_callback_bound k vartrace_proc trace_obj interp name1 name2 f
        hi, if_pos hd]
    · intro e
      exact TclVarTrace.unbind_unbound k this _ e rfl
  · intro hd
    rw [TclVarTrace.vartrace_callback_bound k vartrace_proc trace_obj interp name1 name2 f hi,
      if_neg (not_not.mpr hd)]
    exact ⟨_, rfl⟩

/-- C13 at the sample object `a(x)`: a call with the UNSET and destroyed bits
runs the hook on the still-bound object (it reports "bound") and clears the
handle; a write notification (`0x20`) leaves the object as it is. -/
theorem C13_destroyed_clears_handle_witness :
    (TclVarTrace.vartrace_callback tclH hookReport boundAx 1 "a" (some "x") 0xC0
        = some
            (if 0xC0 &&& tclH.TCL_TRACE_UNSETS = 0 ∨
                boundAx.flags &&& tclH.TCL_TRACE_UNSETS = tclH.TCL_TRACE_UNSETS then
              hookReport boundAx "a" (some "x") 0xC0
            else none, boundAx.set_interp none) ∧
      boundAx.is_bound = true ∧
      (boundAx.set_interp none).interp = none ∧
      (boundAx.set_interp none).is_bound = false ∧
      ∀ e : Engine,
        (boundAx.set_interp none).unbind tclH 7 e = (boundAx.set_interp none, e)) ∧
    (∃ res, TclVarTrace.vartrace_callback tclH hookReport boundAx 1 "a" (some "x") 0x20
        = some (res, boundAx)) :=
  ⟨(C13_destroyed_clears_handle tclH hookReport 7 boundAx 1 "a" (some "x") 0xC0 rfl).1
      (by decide),
   (C13_destroyed_clears_handle tclH hookReport 7 boundAx 1 "a" (some "x") 0x20 rfl).2
      (by decide)⟩

/-- C14: on a bound object, both `bind` overloads, for every argument tuple and
whatever the engine would answer, return `TCL_OK` and leave the object (handle,
names, recorded flags) and the engine as they are: no registration is
requested. -/
theorem C14_bind_when_bound (k : TclH) (this : ClientData) (self : TclVarTrace) (e : Engine)
    (interp0 interp : InterpPtr) (name1 name2 : String) (flags : Nat) (status : Int)
    (hb : self.interp = some interp0) :
    self.bind k this e interp name1 flags status = (k.TCL_OK, self, e) ∧
      self.bind2 k this e interp name1 name2 flags status = (k.TCL_OK, self, e) :=
  ⟨TclVarTrace.bind_bound k this self e interp0 interp name1 flags status hb,
   TclVarTrace.bind2_bound k this self e interp0 interp name1 name2 flags status hb⟩

/-- C14 at the sample bound object, asked to bind another interpreter, other
names and other flags, with an engine that would accept. -/
theorem C14_bind_when_bound_witness :
    boundA.bind tclH 7 ⟨[]⟩ 2 "b" 0x20 0 = (tclH.TCL_OK, boundA, ⟨[]⟩) ∧
      boundA.bind2 tclH 7 ⟨[]⟩ 2 "b" "y" 0x20 0 = (tclH.TCL_OK, boundA, ⟨[]⟩) :=
  C14_bind_when_bound tclH 7 boundA ⟨[]⟩ 1 2 "b" "y" 0x20 0 rfl

/-- C15: on an unbound object, both `bind` overloads return exactly the status
the engine's registration returned; afterwards the handle is the given
interpreter if and only if that status is `TCL_OK`, and null on any other
status. -/
theorem C15_bind_status (k : TclH) (this : ClientData) (self : TclVarTrace) (e : Engine)
    (interp : InterpPtr) (name1 name2 : String) (flags : Nat) (status : Int)
    (hu : self.interp = none) :
    ((self.bind k this e interp name1 flags status).1 = status ∧
      ((self.bind k this e interp name1 flags status).2.1.interp = some interp ↔
        status = k.TCL_OK) ∧
      (status ≠ k.TCL_OK →
        (self.bind k this e interp name1 flags status).2.1.interp = none)) ∧
    ((self.bind2 k this e interp name1 name2 flags status).1 = status ∧
      ((self.bind2 k this e interp name1 name2 flags status).2.1.interp = some interp ↔
        status = k.TCL_OK) ∧
      (status ≠ k.TCL_OK →
        (self.bind2 k this e interp name1 name2 flags status).2.1.interp = none)) := by
  rw [TclVarTrace.bind_unbound k this self e interp name1 flags status hu,
    TclVarTrace.bind2_unbound k this self e interp name1 name2 flags status hu]
  by_cases hs : status = k.TCL_OK <;> simp [TclVarTrace.interp, hs]

/-- C15 at a fresh object: an engine answer of 1 (`TCL_ERROR`) is returned and
leaves the handle null. -/
theorem C15_bind_status_witness :
    (((TclVarTrace.new 0).bind tclH 7 ⟨[]⟩ 1 "a" 0 1).1 = 1 ∧
      (((TclVarTrace.new 0).bind tclH 7 ⟨[]⟩ 1 "a" 0 1).2.1.interp = some 1 ↔
        (1 : Int) = tclH.TCL_OK) ∧
      ((1 : Int) ≠ tclH.TCL_OK →
        ((TclVarTrace.new 0).bind tclH 7 ⟨[]⟩ 1 "a" 0 1).2.1.interp = none)) ∧
    (((TclVarTrace.new 0).bind2 tclH 7 ⟨[]⟩ 1 "a" "x" 0 1).1 = 1 ∧
      (((TclVarTrace.new 0).bind2 tclH 7 ⟨[]⟩ 1 "a" "x" 0 1).2.1.interp = some 1 ↔
        (1 : Int) = tclH.TCL_OK) ∧
      ((1 : Int) ≠ tclH.TCL_OK →
        ((TclVarTrace.new 0).bind2 tclH 7 ⟨[]⟩ 1 "a" "x" 0 1).2.1.interp = none)) :=
  C15_bind_status tclH 7 (TclVarTrace.new 0) ⟨[]⟩ 1 "a" "x" 0 1 rfl

/-- C16: for every caller-supplied flags value, the watch that `bind` (either
overload, on an unbound object) asks the engine to register and the watch that
the following `unbind` asks it to remove carry the flags `flags |
TCL_TRACE_UNSETS`, which contain the UNSET bit, while the recorded `flags()` is
the caller's value. -/
theorem C16_unset_bit_added (k : TclH) (this : ClientData) (self : TclVarTrace) (e : Engine)
    (interp : InterpPtr) (name1 name2 : String) (flags : Nat) (status : Int)
    (hu : self.interp = none) :
    ((self.bind k this e interp name1 flags status).2.2
        = (e.register_watch k (TclVarTrace.bindWatch k this interp name1 flags) status).2 ∧
      (TclVarTrace.bindWatch k this interp name1 flags).flags
        = flags ||| k.TCL_TRACE_UNSETS ∧
      (self.bind k this e interp name1 flags status).2.1.flags = flags) ∧
    ((self.bind2 k this e interp name1 name2 flags status).2.2
        = (e.register_watch k (TclVarTrace.bind2Watch k this interp name1 name2 flags)
            status).2 ∧
      (TclVarTrace.bind2Watch k this interp name1 name2 flags).flags
        = flags ||| k.TCL_TRACE_UNSETS ∧
      (self.bind2 k this e interp name1 name2 flags status).2.1.flags = flags) ∧
    (∀ (obj : TclVarTrace) (e1 : Engine), obj.interp = some interp →
      (obj.unbind k this e1).2 = e1.unregister_watch (obj.unbindWatch k this interp) ∧
      (obj.unbindWatch k this interp).flags = obj.flags ||| k.TCL_TRACE_UNSETS ∧
      (obj.unbind k this e1).1.flags = obj.flags) ∧
    (flags ||| k.TCL_TRACE_UNSETS) &&& k.TCL_TRACE_UNSETS = k.TCL_TRACE_UNSETS := by
  refine ⟨?_, ?_, ?_, or_and_self_mask _ _⟩
  · rw [TclVarTrace.bind_unbound k this self e interp name1 flags status hu]
    exact ⟨rfl, rfl, rfl⟩
  · rw [TclVarTrace.bind2_unbound k this self e interp name1 name2 flags status hu]
    exact ⟨rfl, rfl, rfl⟩
  · intro obj e1 hb
    rw [TclVarTrace.unbind_bound k this obj e1 interp hb]
    exact ⟨rfl, rfl, rfl⟩

/-- C16 at a fresh object bound with flags `0x20` (writes only): the engine is
asked for `0x60`, the recorded flags stay `0x20`, and `unbind` asks for `0x60`
again. -/
theorem C16_unset_bit_added_witness :
    (((TclVarTrace.new 0).bind tclH 7 ⟨[]⟩ 1 "a" 0x20 0).2.2
        = (Engine.register_watch tclH ⟨[]⟩ (TclVarTrace.bindWatch tclH 7 1 "a" 0x20) 0).2 ∧
      (TclVarTrace.bindWatch tclH 7 1 "a" 0x20).flags = 0x20 ||| tclH.TCL_TRACE_UNSETS ∧
      ((TclVarTrace.new 0).bind tclH 7 ⟨[]⟩ 1 "a" 0x20 0).2.1.flags = 0x20) ∧
    (((TclVarTrace.new 0).bind2 tclH 7 ⟨[]⟩ 1 "a" "x" 0x20 0).2.2
        = (Engine.register_watch tclH ⟨[]⟩ (TclVarTrace.bind2Watch tclH 7 1 "a" "x" 0x20)
            0).2 ∧
      (TclVarTrace.bind2Watch tclH 7 1 "a" "x" 0x20).flags = 0x20 ||| tclH.TCL_TRACE_UNSETS ∧
      ((TclVarTrace.new 0).bind2 tclH 7 ⟨[]⟩ 1 "a" "x" 0x20 0).2.1.flags = 0x20) ∧
    ((boundA.unbind tclH 7 ⟨[]⟩).2
        = Engine.unregister_watch ⟨[]⟩ (boundA.unbindWatch tclH 7 1) ∧
      (boundA.unbindWatch tclH 7 1).flags = boundA.flags ||| tclH.TCL_TRACE_UNSETS ∧
      (boundA.unbind tclH 7 ⟨[]⟩).1.flags = boundA.flags) ∧
    (0x20 ||| tclH.TCL_TRACE_UNSETS) &&& tclH.TCL_TRACE_UNSETS = tclH.TCL_TRACE_UNSETS :=
  ⟨(C16_unset_bit_added tclH 7 (TclVarTrace.new 0) ⟨[]⟩ 1 "a" "x" 0x20 0 rfl).1,
   (C16_unset_bit_added tclH 7 (TclVarTrace.new 0) ⟨[]⟩ 1 "a" "x" 0x20 0 rfl).2.1,
   (C16_unset_bit_added tclH 7 (TclVarTrace.new 0) ⟨[]⟩ 1 "a" "x" 0x20 0 rfl).2.2.1
     boundA ⟨[]⟩ rfl,
   (C16_unset_bit_added tclH 7 (TclVarTrace.new 0) ⟨[]⟩ 1 "a" "x" 0x20 0 rfl).2.2.2⟩

/-- C17: `unbind` on an unbound object leaves the object and every engine as
they are; on a bound object it makes the one removal request `unbindWatch` and
the handle is null afterwards; in either case a second `unbind` changes
nothing, so two calls end in the state a single call ends in. -/
theorem C17_unbind_idempotent (k : TclH) (this : ClientData) (self : TclVarTrace)
    (e : Engine) :
    (self.interp = none → self.unbind k this e = (self, e)) ∧
    (∀ interp, self.interp = some interp →
      self.unbind k this e
        = (self.set_interp none, e.unregister_watch (self.unbindWatch k this interp))) ∧
    (self.unbind k this e).1.interp = none ∧
    (self.unbind k this e).1.unbind k this (self.unbind k this e).2
      = self.unbind k this e := by
  have hnull : (self.unbind k this e).1.interp = none := by
    cases hi : self.interp with
    | none => rw [TclVarTrace.unbind_unbound k this self e hi]; exact hi
    | some interp => rw [TclVarTrace.unbind_bound k this self e interp hi]; rfl
  exact ⟨TclVarTrace.unbind_unbound k this self e,
    fun interp hb => TclVarTrace.unbind_bound k this self e interp hb, hnull,
    TclVarTrace.unbind_unbound k this _ _ hnull⟩

/-- C17 at the sample bound object next to an engine that holds its watch, and
at a fresh object. -/
theorem C17_unbind_idempotent_witness :
    (TclVarTrace.new 0).unbind tclH 7 ⟨[⟨1, "a", none, 0x40, 7⟩]⟩
        = (TclVarTrace.new 0, ⟨[⟨1, "a", none, 0x40, 7⟩]⟩) ∧
    boundA.unbind tclH 7 ⟨[⟨1, "a", none, 0x40, 7⟩]⟩
        = (boundA.set_interp none,
            Engine.unregister_watch ⟨[⟨1, "a", none, 0x40, 7⟩]⟩ (boundA.unbindWatch tclH 7 1)) ∧
    (boundA.unbind tclH 7 ⟨[⟨1, "a", none, 0x40, 7⟩]⟩).1.interp = none ∧
    (boundA.unbind tclH 7 ⟨[⟨1, "a", none, 0x40, 7⟩]⟩).1.unbind tclH 7
        (boundA.unbind tclH 7 ⟨[⟨1, "a", none, 0x40, 7⟩]⟩).2
      = boundA.unbind tclH 7 ⟨[⟨1, "a", none, 0x40, 7⟩]⟩ :=
  ⟨(C17_unbind_idempotent tclH 7 (TclVarTrace.new 0) ⟨[⟨1, "a", none, 0x40, 7⟩]⟩).1 rfl,
   (C17_unbind_idempotent tclH 7 boundA ⟨[⟨1, "a", none, 0x40, 7⟩]⟩).2.1 1 rfl,
   (C17_unbind_idempotent tclH 7 boundA ⟨[⟨1, "a", none, 0x40, 7⟩]⟩).2.2.1,
   (C17_unbind_idempotent tclH 7 boundA ⟨[⟨1, "a", none, 0x40, 7⟩]⟩).2.2.2⟩

/-! ## Option subsystem: the cursor -/

theorem Popt.setCount_setCount (m n : Int) (p : Popt) :
    (p.setCount m).setCount n = p.setCount n := by
  cases p <;> rfl

theorem Popt.isTyped_setCount (n : Int) (p : Popt) : (p.setCount n).isTyped = p.isTyped := by
  cases p <;> rfl

/-- The `action` of a typed class with the cursor at `end`: `Error`, the
"no argument" message, cursor and object untouched, for any overridable
functions. -/
theorem Popt.action_missing (tcl : Conv) (h : Hooks) (opt_str : String) (args : TclObjVector)
    (end_ : Nat) (p : Popt) (cmd : TclCmd) (htyped : p.isTyped = true) :
    Popt.action tcl h opt_str args end_ end_ p cmd
      = some (.Error, end_, p, set_result (opt_str ++ ": no argument") cmd) := by
  cases p with
  | base q => simp [Popt.isTyped, Popt.kind] at htyped
  | obj q =>
    simp [Popt.action, TclPoptObj.action, TclPopt.get_next_arg, Popt.wrap]
  | str q =>
    simp [Popt.action, TclPoptStr.action, TclPopt.get_next_arg, Popt.wrap]
  | bool q =>
    simp [Popt.action, TclPoptBool.action, TclPopt.get_next_arg, Popt.wrap]
  | int q =>
    simp [Popt.action, TclPoptInt.action, TclPopt.get_next_arg, Popt.wrap]
  | uint q =>
    simp [Popt.action, TclPoptUint.action, TclPopt.get_next_arg, Popt.wrap]
  | long q =>
    simp [Popt.action, TclPoptLong.action, TclPopt.get_next_arg, Popt.wrap]
  | ulong q =>
    simp [Popt.action, TclPoptUlong.action, TclPopt.get_next_arg, Popt.wrap]
  | double q =>
    simp [Popt.action, TclPoptDouble.action, TclPopt.get_next_arg, Popt.wrap]

/-- The `action` of a typed class with the cursor on a token: the cursor moves
on by exactly one, whatever the result; when the token does not convert the
result is `Error` and the object is untouched. -/
theorem Popt.action_consumes (tcl : Conv) (h : Hooks) (opt_str : String) (args : TclObjVector)
    (rpos end_ : Nat) (p : Popt) (cmd : TclCmd) (t : TclObj) (htyped : p.isTyped = true)
    (hne : rpos ≠ end_) (hat : args[rpos]? = some t) :
    ∃ r, Popt.action tcl h opt_str args rpos end_ p cmd = some r ∧ r.2.1 = rpos + 1 ∧
      (p.convert tcl t = none → r.1 = .Error ∧ r.2.2.1 = p) := by
  cases p with
  | base q => simp [Popt.isTyped, Popt.kind] at htyped
  | obj q =>
    simp [Popt.action, TclPoptObj.action, TclPopt.get_next_arg, Popt.wrap, Popt.convert,
      hne, hat]
  | str q =>
    simp [Popt.action, TclPoptStr.action, TclPopt.get_next_arg, Popt.wrap, Popt.convert,
      hne, hat]
  | bool q =>
    cases hc : tcl.bool_conv t <;>
      simp [Popt.action, TclPoptBool.action, TclPopt.get_next_arg, Popt.wrap, Popt.convert,
        hne, hat, hc]
  | int q =>
    cases hc : tcl.int_conv t <;>
      simp [Popt.action, TclPoptInt.action, TclPopt.get_next_arg, Popt.wrap, Popt.convert,
        hne, hat, hc]
  | uint q =>
    cases hc : tcl.uint_conv t <;>
      simp [Popt.action, TclPoptUint.action, TclPopt.get_next_arg, Popt.wrap, Popt.convert,
        hne, hat, hc]
  | long q =>
    cases hc : tcl.long_conv t <;>
      simp [Popt.action, TclPoptLong.action, TclPopt.get_next_arg, Popt.wrap, Popt.convert,
        hne, hat, hc]
  | ulong q =>
    cases hc : tcl.ulong_conv t <;>
      simp [Popt.action, TclPoptUlong.action, TclPopt.get_next_arg, Popt.wrap, Popt.convert,
        hne, hat, hc]
  | double q =>
    cases hc : tcl.double_conv t <;>
      simp [Popt.action, TclPoptDouble.action, TclPopt.get_next_arg, Popt.wrap, Popt.convert,
        hne, hat, hc]

/-- Once an option that forbids overriding has been matched, every further
`_action` in a run is rejected and leaves the option as it is. -/
theorem Popt.actions_rejected (tcl : Conv) (h : Hooks) (opt_str : String)
    (args : TclObjVector) (end_ : Nat) (p : Popt)
    (hov : p.toTclPopt.mAllowOverride = false) (hcnt : 0 < p.toTclPopt.mCount)
    (cs : List Nat) :
    ∀ cmd : TclCmd, ∃ cmd1, Popt.actions tcl h opt_str args end_ cs p cmd
      = some (List.replicate cs.length .Error, p, cmd1) := by
  induction cs with
  | nil => intro cmd; exact ⟨cmd, rfl⟩
  | cons c rest ih =>
    intro cmd
    obtain ⟨cmd1, h1⟩ := ih (set_result (opt_str ++ ": specified more than once") cmd)
    refine ⟨cmd1, ?_⟩
    simp [Popt.actions, Popt._action_duplicate tcl h p cmd opt_str args c end_ hov hcnt, h1,
      List.replicate_succ]

/-- C18: for every typed option that forbids overriding: if the first `_action`
after `_init` finds no argument or an argument that does not convert, it
returns `Error`, and from then on every `_action` on that option, wherever its
cursor stands, returns `Error` with "<token>: specified more than once" and
changes nothing; `val()` stays what it was before the pass. -/
theorem C18_failed_first_match_blocks (tcl : Conv) (h : Hooks) (p : Popt) (cmd : TclCmd)
    (opt_str : String) (args : TclObjVector) (rpos end_ : Nat)
    (htyped : p.isTyped = true) (hov : p.toTclPopt.mAllowOverride = false)
    (hfirst : rpos = end_ ∨ ∃ t, args[rpos]? = some t ∧ p.convert tcl t = none) :
    ∃ rpos1 p1 cmd1,
      Popt._action tcl h opt_str args rpos end_ (p._init h cmd).1 (p._init h cmd).2
        = some (.Error, rpos1, p1, cmd1) ∧
      p1.val = p.val ∧
      (∀ (rpos2 : Nat) (cmd2 : TclCmd),
        Popt._action tcl h opt_str args rpos2 end_ p1 cmd2
          = some (.Error, rpos2, p1,
              set_result (opt_str ++ ": specified more than once") cmd2)) ∧
      (∀ (cs : List Nat) (cmd2 : TclCmd),
        ∃ cmd3, Popt.actions tcl h opt_str args end_ cs p1 cmd2
          = some (List.replicate cs.length .Error, p1, cmd3)) := by
  have hact : ∀ c : TclCmd, Popt._action tcl h opt_str args rpos end_ (p.setCount 0) c
      = Popt.action tcl h opt_str args rpos end_ (p.setCount 1) c := by
    intro c
    simp [Popt._action, Popt.toTclPopt_setCount, Popt.setCount_setCount, wrapInt_one]
  have ht1 : (p.setCount 1).isTyped = true := by rw [Popt.isTyped_setCount]; exact htyped
  have hov1 : (p.setCount 1).toTclPopt.mAllowOverride = false := by
    simpa [Popt.toTclPopt_setCount] using hov
  have hcnt1 : 0 < (p.setCount 1).toTclPopt.mCount := by simp [Popt.toTclPopt_setCount]
  have hfail : ∃ rpos1 cmd1, Popt.action tcl h opt_str args rpos end_ (p.setCount 1)
      (h.init (p.setCount 0) cmd) = some (.Error, rpos1, p.setCount 1, cmd1) := by
    by_cases hr : rpos = end_
    · subst hr
      exact ⟨_, _, Popt.action_missing tcl h opt_str args rpos (p.setCount 1) _ ht1⟩
    · obtain ⟨t, hat, hconv⟩ := hfirst.resolve_left hr
      have hconv1 : (p.setCount 1).convert tcl t = none := by
        rw [Popt.convert_of_kind tcl _ p (Popt.kind_setCount 1 p)]; exact hconv
      obtain ⟨⟨st, rpos1, p1, cmd1⟩, h1, _, h3⟩ := Popt.action_consumes tcl h opt_str args
        rpos end_ (p.setCount 1) (h.init (p.setCount 0) cmd) t ht1 hr hat
      obtain ⟨hst, hp⟩ := h3 hconv1
      simp only at hst hp
      subst hst; subst hp
      exact ⟨rpos1, cmd1, h1⟩
  obtain ⟨rpos1, cmd1, h1⟩ := hfail
  refine ⟨rpos1, p.setCount 1, cmd1, ?_, Popt.val_setCount 1 p, ?_, ?_⟩
  · simp only [Popt._init]
    rw [hact]; exact h1
  · intro rpos2 cmd2
    exact Popt._action_duplicate tcl h (p.setCount 1) cmd2 opt_str args rpos2 end_ hov1 hcnt1
  · intro cs cmd2
    exact Popt.actions_rejected tcl h opt_str args end_ (p.setCount 1) hov1 hcnt1 cs cmd2

/-- C18 at the sample option `-n` on `-n banana -n 5`: the first match fails on
`banana`; the second, on the convertible `5`, is rejected. -/
theorem C18_failed_first_match_blocks_witness :
    ∃ rpos1 p1 cmd1,
      Popt._action sampleConv Hooks.default "-n" [⟨"-n"⟩, ⟨"banana"⟩, ⟨"-n"⟩, ⟨"5"⟩] 1 4
          (optN._init Hooks.default cmd0).1 (optN._init Hooks.default cmd0).2
        = some (.Error, rpos1, p1, cmd1) ∧
      p1.val = optN.val ∧
      (∀ (rpos2 : Nat) (cmd2 : TclCmd),
        Popt._action sampleConv Hooks.default "-n" [⟨"-n"⟩, ⟨"banana"⟩, ⟨"-n"⟩, ⟨"5"⟩] rpos2 4
            p1 cmd2
          = some (.Error, rpos2, p1,
              set_result ("-n" ++ ": specified more than once") cmd2)) ∧
      (∀ (cs : List Nat) (cmd2 : TclCmd),
        ∃ cmd3, Popt.actions sampleConv Hooks.default "-n"
            [⟨"-n"⟩, ⟨"banana"⟩, ⟨"-n"⟩, ⟨"5"⟩] 4 cs p1 cmd2
          = some (List.replicate cs.length .Error, p1, cmd3)) :=
  C18_failed_first_match_blocks sampleConv Hooks.default optN cmd0 "-n"
    [⟨"-n"⟩, ⟨"banana"⟩, ⟨"-n"⟩, ⟨"5"⟩] 1 4 rfl rfl (Or.inr ⟨⟨"banana"⟩, rfl, rfl⟩)

/-- C20: `_init` with the default `init` changes only the count: the result
channel is untouched, `count()` is 0, `is_specified()` is false, and `val()`
is what it was before, so an option not matched in the new pass still returns
the value stored by the previous pass. -/
theorem C20_init_keeps_val (p : Popt) (cmd : TclCmd) :
    p._init Hooks.default cmd = (p.setCount 0, cmd) ∧
      (p._init Hooks.default cmd).1.val = p.val ∧
      (p._init Hooks.default cmd).1.count = 0 ∧
      (p._init Hooks.default cmd).1.is_specified = false ∧
      (p._init Hooks.default cmd).1.toTclPopt = { p.toTclPopt with mCount := 0 } := by
  refine ⟨rfl, Popt.val_setCount 0 p, ?_, ?_, Popt.toTclPopt_setCount 0 p⟩
  · simp [Popt._init, Popt.count, TclPopt.count, Popt.toTclPopt_setCount]
  · simp [Popt._init, Popt.is_specified, TclPopt.is_specified, TclPopt.count,
      Popt.toTclPopt_setCount]

/-- The duplicate message is not the missing-argument message. -/
theorem dup_msg_ne_no_argument (opt_str : String) :
    opt_str ++ ": specified more than once" ≠ opt_str ++ ": no argument" := by
  intro heq
  have hd := congrArg String.data heq
  simp only [String.data_append, List.append_cancel_left_eq] at hd
  exact absurd hd (by decide)

/-- C19: cursor movement of `_action`, for any overridable functions.
(1) A rejected duplicate leaves cursor, option (value and count) untouched and
reports "specified more than once" wherever the cursor stands, also at `end`.
(2) A typed option whose argument is missing leaves the cursor at `end`.
(3) A typed option with a token under the cursor moves the cursor on by
exactly one, whether the conversion succeeds or fails; a failed conversion
gives `Error`, a successful one with the default post-match function `Ok`.
(4) An option of the base class consumes no token and returns `Ok`. -/
theorem C19_cursor_movement (tcl : Conv) (h : Hooks) (p : Popt) (cmd : TclCmd)
    (opt_str : String) (args : TclObjVector) (rpos end_ : Nat) :
    (p.toTclPopt.mAllowOverride = false → 0 < p.toTclPopt.mCount →
      Popt._action tcl h opt_str args rpos end_ p cmd
        = some (.Error, rpos, p, set_result (opt_str ++ ": specified more than once") cmd) ∧
      Popt._action tcl h opt_str args end_ end_ p cmd
        = some (.Error, end_, p, set_result (opt_str ++ ": specified more than once") cmd) ∧
      opt_str ++ ": specified more than once" ≠ opt_str ++ ": no argument") ∧
    (p.isTyped = true →
      (!p.toTclPopt.mAllowOverride && decide (p.toTclPopt.mCount > 0)) = false →
      Popt._action tcl h opt_str args end_ end_ p cmd
        = some (.Error, end_, p.setCount (wrapInt (p.toTclPopt.mCount + 1)),
            set_result (opt_str ++ ": no argument") cmd)) ∧
    (p.isTyped = true →
      (!p.toTclPopt.mAllowOverride && decide (p.toTclPopt.mCount > 0)) = false →
      rpos ≠ end_ → ∀ t, args[rpos]? = some t →
      (∃ st p1 cmd1, Popt._action tcl h opt_str args rpos end_ p cmd
          = some (st, rpos + 1, p1, cmd1) ∧
        (p.convert tcl t = none → st = .Error)) ∧
      (∀ v, p.convert tcl t = some v →
        ∃ p1 cmd1, Popt._action tcl Hooks.default opt_str args rpos end_ p cmd
          = some (.Ok, rpos + 1, p1, cmd1))) ∧
    (∀ q : TclPopt, p = .base q →
      (!p.toTclPopt.mAllowOverride && decide (p.toTclPopt.mCount > 0)) = false →
      Popt._action tcl h opt_str args rpos end_ p cmd
        = some (.Ok, rpos, .base { q with mCount := wrapInt (q.mCount + 1) }, cmd)) := by
  refine ⟨?_, ?_, ?_, ?_⟩
  · intro hov hcnt
    exact ⟨Popt._action_duplicate tcl h p cmd opt_str args rpos end_ hov hcnt,
      Popt._action_duplicate tcl h p cmd opt_str args end_ end_ hov hcnt,
      dup_msg_ne_no_argument opt_str⟩
  · intro htyped hdup
    unfold Popt._action
    rw [hdup]
    simp only [Bool.false_eq_true, if_false]
    exact Popt.action_missing tcl h opt_str args end_ _ cmd
      (by rw [Popt.isTyped_setCount]; exact htyped)
  · intro htyped hdup hne t hat
    constructor
    · obtain ⟨⟨st, rpos1, p1, cmd1⟩, h1, h2, h3⟩ := Popt.action_consumes tcl h opt_str args
        rpos end_ (p.setCount (wrapInt (p.toTclPopt.mCount + 1))) cmd t
        (by rw [Popt.isTyped_setCount]; exact htyped) hne hat
      simp only at h2 h3
      subst h2
      refine ⟨st, p1, cmd1, ?_, ?_⟩
      · unfold Popt._action
        rw [hdup]
        simpa using h1
      · intro hconv
        exact (h3 (by
          rw [Popt.convert_of_kind tcl _ p (Popt.kind_setCount _ p)]; exact hconv)).1
    · intro v hconv
      obtain ⟨p1, h1, _⟩ := Popt._action_convertible tcl p cmd opt_str args rpos end_ t v
        hdup hne hat hconv
      exact ⟨p1, cmd, h1⟩
  · intro q hq hdup
    subst hq
    unfold Popt._action
    rw [hdup]
    simp [Popt.setCount, Popt.action, TclPopt.action, Popt.wrap, Popt.toTclPopt]

/-- C19 at the samples: the matched option `-n` rejected at index 3 of
`-n 5 -n 6`; `-n` as the last token; `-b banana`; the flag `-f`. -/
theorem C19_cursor_movement_witness :
    (Popt._action sampleConv Hooks.default "-n" argsN 3 4 optOnce cmd0
        = some (.Error, 3, optOnce, set_result ("-n" ++ ": specified more than once") cmd0) ∧
      Popt._action sampleConv Hooks.default "-n" argsN 4 4 optOnce cmd0
        = some (.Error, 4, optOnce, set_result ("-n" ++ ": specified more than once") cmd0) ∧
      "-n" ++ ": specified more than once" ≠ "-n" ++ ": no argument") ∧
    (Popt._action sampleConv Hooks.default "-n" [⟨"-n"⟩] 1 1 optN cmd0
        = some (.Error, 1, optN.setCount (wrapInt (optN.toTclPopt.mCount + 1)),
            set_result ("-n" ++ ": no argument") cmd0)) ∧
    ((∃ st p1 cmd1, Popt._action sampleConv Hooks.default "-b" argsB 1 2 optB cmd0
          = some (st, 1 + 1, p1, cmd1) ∧
        (optB.convert sampleConv ⟨"banana"⟩ = none → st = .Error)) ∧
      (∀ v, optB.convert sampleConv ⟨"banana"⟩ = some v →
        ∃ p1 cmd1, Popt._action sampleConv Hooks.default "-b" argsB 1 2 optB cmd0
          = some (.Ok, 1 + 1, p1, cmd1))) ∧
    (Popt._action sampleConv Hooks.default "-f" [⟨"-f"⟩] 1 1 (.base flagF) cmd0
        = some (.Ok, 1, .base { flagF with mCount := wrapInt (flagF.mCount + 1) }, cmd0)) :=
  ⟨(C19_cursor_movement sampleConv Hooks.default optOnce cmd0 "-n" argsN 3 4).1 rfl
      (by decide),
   (C19_cursor_movement sampleConv Hooks.default optN cmd0 "-n" [⟨"-n"⟩] 1 1).2.1 rfl rfl,
   (C19_cursor_movement sampleConv Hooks.default optB cmd0 "-b" argsB 1 2).2.2.1 rfl rfl
      (by decide) ⟨"banana"⟩ rfl,
   (C19_cursor_movement sampleConv Hooks.default (.base flagF) cmd0 "-f" [⟨"-f"⟩] 1 1).2.2.2
      flagF rfl rfl⟩

end YmTclpp
